import Mathlib

/-!
# Social-Media-Usage-Analytics

Shallow embeddings of

* `backend/src/utils/recommendations.js` (namespace `Recommendations`),
* `backend/src/middleware/errorHandler.js` (namespace `ErrorHandler`),
* `backend/src/middleware/authMiddleware.js` and
  `backend/backend/src/controllers/authController.js` (namespace `Auth`),
* `backend/backend/src/middleware/validator.js` (namespace `Validator`),

with the definitions of all four first and the theorems after them.

## The recommendation engine

* A JavaScript number is modelled by `JSNumber`: `NaN`, the two infinities, or a finite
  value.  Every finite double is a rational number and the comparisons `>` and `===` on
  doubles are exact, so finite values are taken in `ℚ` (a superset of the finite doubles).
  A missing field (`undefined`) behaves like `NaN` here: `undefined > k` is `false` and
  `undefined === 7` is `false`.
* `riskScore.level` and `weeklyStats.trend` are strings, compared with `===`.  A value that
  is not a string is `===` to none of the four literals, like any other string.
* The array `recommendations` is a list; `push` appends at the end and `slice(0, 5)` keeps
  the first five entries.
-/

namespace Recommendations

/-- A JavaScript number. -/
inductive JSNumber where
  | nan : JSNumber
  | negInf : JSNumber
  | posInf : JSNumber
  | fin (q : ℚ) : JSNumber
  deriving DecidableEq

/-- The JavaScript test `x > k` for a finite literal `k`. -/
def JSNumber.gt (x : JSNumber) (k : ℚ) : Bool :=
  match x with
  | .nan => false
  | .negInf => false
  | .posInf => true
  | .fin q => decide (k < q)

/-- The JavaScript test `x === k` for a finite literal `k`. -/
def JSNumber.strictEq (x : JSNumber) (k : ℚ) : Bool :=
  match x with
  | .fin q => decide (q = k)
  | _ => false

/-- The object `riskScore`: only `level` is read by the engine. -/
structure RiskScore where
  level : String

/-- The objects `weeklyStats` and `monthlyStats`: the fields the engine reads. -/
structure Stats where
  averageDailyMinutes : JSNumber
  trend : String
  daysActive : JSNumber

/-- The argument `analytics` of `generateRecommendations`. -/
structure Analytics where
  riskScore : RiskScore
  weeklyStats : Stats
  monthlyStats : Stats
  peakMinutes : JSNumber

/-- A recommendation object. -/
structure Recommendation where
  type : String
  priority : String
  title : String
  message : String
  actionable : Bool
  deriving DecidableEq

/-- The method `Array.prototype.push` with one argument. -/
def push (recommendations : List Recommendation) (r : Recommendation) :
    List Recommendation :=
  recommendations ++ [r]

/-- The object pushed first under `riskScore.level === 'high'`. -/
def usageRec : Recommendation :=
  { type := "usage"
    priority := "high"
    title := "Consider Setting Time Boundaries"
    message := "Your usage patterns suggest frequent engagement. You might benefit from setting specific time limits or break reminders during your most active hours."
    actionable := true }

/-- The object pushed second under `riskScore.level === 'high'`. -/
def awarenessRec : Recommendation :=
  { type := "awareness"
    priority := "high"
    title := "Track Your Peak Hours"
    message := "You're most active during peak usage periods. Being aware of these patterns can help you make more intentional choices about when to engage."
    actionable := false }

/-- The object pushed under `riskScore.level === 'moderate'`. -/
def balanceRec : Recommendation :=
  { type := "balance"
    priority := "medium"
    title := "Maintain Healthy Balance"
    message := "Your usage is moderate. Consider maintaining awareness and setting gentle reminders to ensure your engagement remains balanced with other activities."
    actionable := true }

/-- The object pushed under `weeklyStats.averageDailyMinutes > 240`. -/
def breakRec : Recommendation :=
  { type := "break"
    priority := "medium"
    title := "Take Regular Breaks"
    message := "Consider incorporating short breaks between sessions. Even 5-10 minute breaks can help refresh your focus."
    actionable := true }

/-- The object pushed under `weeklyStats.trend === 'increasing'`. -/
def trendRec : Recommendation :=
  { type := "trend"
    priority := "medium"
    title := "Notice Usage Trends"
    message := "Your usage has been increasing recently. This might be a good time to reflect on your goals and set some gentle boundaries if needed."
    actionable := true }

/-- The object pushed under `weeklyStats.trend === 'decreasing'`. -/
def positiveRec : Recommendation :=
  { type := "positive"
    priority := "low"
    title := "Great Progress!"
    message := "You've been reducing your usage recently. Keep up the awareness and continue making choices that align with your goals."
    actionable := false }

/-- The object pushed under `weeklyStats.daysActive === 7`. -/
def varietyRec : Recommendation :=
  { type := "variety"
    priority := "medium"
    title := "Diversify Your Activities"
    message := "You engage daily. Consider exploring other activities or hobbies on some days to create variety in your routine."
    actionable := true }

/-- The object pushed under `peakMinutes > 360`. -/
def peakRec : Recommendation :=
  { type := "peak"
    priority := "high"
    title := "Manage High-Usage Days"
    message := "Some days show particularly high usage. You might find it helpful to plan alternative activities for days when you notice you're spending extended time."
    actionable := true }

/-- The object pushed when the array is still empty after all rules. -/
def generalRec : Recommendation :=
  { type := "general"
    priority := "low"
    title := "Stay Mindful"
    message := "Regular tracking helps build awareness. Continue monitoring your patterns and make adjustments that feel right for you."
    actionable := false }

/-- The array `recommendations` as it stands just before `slice(0, 5)`: every conditional
push of the source, in source order, the fallback included. -/
def collected (analytics : Analytics) : List Recommendation :=
  let riskScore := analytics.riskScore
  let weeklyStats := analytics.weeklyStats
  let peakMinutes := analytics.peakMinutes
  let recommendations : List Recommendation := []
  let recommendations :=
    if riskScore.level = "high" then push (push recommendations usageRec) awarenessRec
    else recommendations
  let recommendations :=
    if riskScore.level = "moderate" then push recommendations balanceRec
    else recommendations
  let recommendations :=
    if weeklyStats.averageDailyMinutes.gt 240 then push recommendations breakRec
    else recommendations
  let recommendations :=
    if weeklyStats.trend = "increasing" then push recommendations trendRec
    else recommendations
  let recommendations :=
    if weeklyStats.trend = "decreasing" then push recommendations positiveRec
    else recommendations
  let recommendations :=
    if weeklyStats.daysActive.strictEq 7 then push recommendations varietyRec
    else recommendations
  let recommendations :=
    if peakMinutes.gt 360 then push recommendations peakRec
    else recommendations
  let recommendations :=
    if recommendations.length = 0 then push recommendations generalRec
    else recommendations
  recommendations

/-- The function `generateRecommendations`: the collected array cut by `slice(0, 5)`. -/
def generateRecommendations (analytics : Analytics) : List Recommendation :=
  (collected analytics).take 5

/-! ## Concrete inputs used to instantiate the theorems -/

/-- A light week: level low, 100 minutes a day, stable, 3 active days, peak 200. -/
def lightWeek : Analytics :=
  { riskScore := { level := "low" }
    weeklyStats := { averageDailyMinutes := .fin 100, trend := "stable", daysActive := .fin 3 }
    monthlyStats := { averageDailyMinutes := .fin 90, trend := "stable", daysActive := .fin 12 }
    peakMinutes := .fin 200 }

/-- Seven days of 300 minutes each, level high, increasing, peak 300. -/
def sevenDays300 : Analytics :=
  { riskScore := { level := "high" }
    weeklyStats := { averageDailyMinutes := .fin 300, trend := "increasing", daysActive := .fin 7 }
    monthlyStats := { averageDailyMinutes := .fin 70, trend := "stable", daysActive := .fin 7 }
    peakMinutes := .fin 300 }

/-- Every rule fires: level high, 300 minutes a day, increasing, 7 active days, peak 400. -/
def heavyWeek : Analytics :=
  { riskScore := { level := "high" }
    weeklyStats := { averageDailyMinutes := .fin 300, trend := "increasing", daysActive := .fin 7 }
    monthlyStats := { averageDailyMinutes := .fin 250, trend := "increasing", daysActive := .fin 30 }
    peakMinutes := .fin 400 }

/-- A moderate week: 240 minutes a day exactly, decreasing, 5 active days, peak 360. -/
def moderateWeek : Analytics :=
  { riskScore := { level := "moderate" }
    weeklyStats := { averageDailyMinutes := .fin 240, trend := "decreasing", daysActive := .fin 5 }
    monthlyStats := { averageDailyMinutes := .fin 200, trend := "stable", daysActive := .fin 20 }
    peakMinutes := .fin 360 }

/-- A single entry of 400 minutes on one day of the week: average 400/7, peak 400. -/
def singleSpike : Analytics :=
  { riskScore := { level := "low" }
    weeklyStats := { averageDailyMinutes := .fin (400 / 7), trend := "stable", daysActive := .fin 1 }
    monthlyStats := { averageDailyMinutes := .fin (400 / 30), trend := "stable", daysActive := .fin 1 }
    peakMinutes := .fin 400 }

/-! ## The order of the rules, as the specification lists the types -/

/-- The types in the order of the rules that produce them. -/
def typeOrder : List String :=
  ["usage", "awareness", "balance", "break", "trend", "positive", "variety", "peak", "general"]

/-- The position of a type in `typeOrder` (9 for a string that is not a type). -/
def typeRank (t : String) : Nat :=
  typeOrder.indexOf t

/-- The priorities of the specification. -/
def priorities : List String :=
  ["high", "medium", "low"]

/-! ## A normal form of the collected array

`rulesFired` rebuilds the array from the seven guard values alone.  It is a proof device:
`collected_eq_rulesFired` shows that the source-shaped `collected` computes exactly this, and
the theorems below then go by cases on the seven booleans. -/

/-- The collected array as a function of the seven guard values. -/
def rulesFired (h m b i d v p : Bool) : List Recommendation :=
  let core :=
    (if h then [usageRec, awarenessRec] else []) ++ (if m then [balanceRec] else []) ++
    (if b then [breakRec] else []) ++ (if i then [trendRec] else []) ++
    (if d then [positiveRec] else []) ++ (if v then [varietyRec] else []) ++
    (if p then [peakRec] else [])
  if core.length = 0 then [generalRec] else core

/-- The nine payloads of the source, in source order. -/
def ruleTable : List Recommendation :=
  [usageRec, awarenessRec, balanceRec, breakRec, trendRec, positiveRec, varietyRec, peakRec,
    generalRec]

/-! ## `getMotivationalMessage`

The object literal `messages` has three own properties and inherits the members of
`Object.prototype`.  A property read `messages[level]` first turns `level` into a property
key and then looks the key up on the object and on its prototype. -/

/-- A value handed to `getMotivationalMessage` as `level`. -/
inductive LevelValue where
  | undefined : LevelValue
  | null : LevelValue
  | str (s : String) : LevelValue
  deriving DecidableEq

/-- The property key a level value is turned into by `messages[level]`. -/
def LevelValue.propertyKey : LevelValue → String
  | .undefined => "undefined"
  | .null => "null"
  | .str s => s

/-- The value of a property read on `messages`. -/
inductive PropertyValue where
  | undefined : PropertyValue
  | str (s : String) : PropertyValue
  | inherited (name : String) : PropertyValue
  deriving DecidableEq

/-- JavaScript truthiness of a property value: an inherited member is a function (or, for
`__proto__`, the prototype object), which is truthy; the three messages are non-empty. -/
def PropertyValue.truthy : PropertyValue → Bool
  | .undefined => false
  | .str s => decide (s ≠ "")
  | .inherited _ => true

/-- The property `messages.low`. -/
def lowMessage : String :=
  "Your usage patterns are well-balanced. Keep up the great awareness!"

/-- The property `messages.moderate`. -/
def moderateMessage : String :=
  "You're maintaining moderate engagement. Continue being mindful of your patterns."

/-- The property `messages.high`. -/
def highMessage : String :=
  "Your usage patterns show frequent engagement. Awareness is the first step toward intentional choices. You've got this!"

/-- The names every object inherits from `Object.prototype`. -/
def objectPrototypeMembers : List String :=
  ["constructor", "__defineGetter__", "__defineSetter__", "hasOwnProperty",
    "__lookupGetter__", "__lookupSetter__", "isPrototypeOf", "propertyIsEnumerable",
    "toString", "valueOf", "__proto__", "toLocaleString"]

/-- The property read `messages[key]`: own properties first, then the prototype. -/
def messagesGet (key : String) : PropertyValue :=
  if key = "low" then .str lowMessage
  else if key = "moderate" then .str moderateMessage
  else if key = "high" then .str highMessage
  else if key ∈ objectPrototypeMembers then .inherited key
  else .undefined

/-- The function `getMotivationalMessage`: `messages[level] || messages.low`. -/
def getMotivationalMessage (level : LevelValue) : PropertyValue :=
  let found := messagesGet level.propertyKey
  if found.truthy then found else messagesGet "low"

/-- The week in which every rule fires, with a quiet month behind it. -/
def heavyWeekQuietMonth : Analytics :=
  { riskScore := { level := "high" }
    weeklyStats := { averageDailyMinutes := .fin 300, trend := "increasing", daysActive := .fin 7 }
    monthlyStats := { averageDailyMinutes := .fin 10, trend := "stable", daysActive := .fin 2 }
    peakMinutes := .fin 400 }

end Recommendations

/-! # JavaScript values shared by the middleware models -/

namespace JS

open Recommendations

/-- A JavaScript value, as far as the middleware inspects it: `undefined`, `null`, booleans,
numbers, strings, and the rest (objects, functions and symbols: truthy values that are none
of these), told apart by a label. -/
inductive JSValue where
  | undefined : JSValue
  | null : JSValue
  | bool (b : Bool) : JSValue
  | num (n : JSNumber) : JSValue
  | str (s : String) : JSValue
  | object (label : String) : JSValue
  deriving DecidableEq

/-- JavaScript truthiness: `undefined`, `null`, `false`, `0`, `NaN` and the empty string are
falsy, every other value is truthy. -/
def JSValue.truthy : JSValue → Bool
  | .undefined => false
  | .null => false
  | .bool b => b
  | .num .nan => false
  | .num (.fin q) => decide (q ≠ 0)
  | .num _ => true
  | .str s => decide (s ≠ "")
  | .object _ => true

/-- The operator `a || b`. -/
def JSValue.or (a b : JSValue) : JSValue :=
  if a.truthy then a else b

/-- The number literal `n`. -/
def JSValue.ofNat (n : Nat) : JSValue :=
  .num (.fin n)

/-- Whether a value is `undefined` or `null`. -/
def JSValue.nullish : JSValue → Bool
  | .undefined => true
  | .null => true
  | _ => false

end JS

/-! # `backend/src/middleware/errorHandler.js`

* `err` is any truthy value: Express hands only truthy values to an error middleware.  A
  primitive has every field `undefined`.
* `err.errors` is `undefined`/`null`, an array whose elements are objects or
  `undefined`/`null`, or another value (which has no callable `map`).
* `toStr` stands for the conversion of a value to a string in a template literal and in
  `Array.prototype.join`; it is a parameter, and it yields `none` where the conversion throws
  a `TypeError` (a symbol, an object without a usable `toString`).
* `res.status(code).json(body)` and `res.status(code).end(text)` are calls into Express; each
  may throw, and a failed `json` may or may not have sent the headers.
* `development` stands for `process.env.NODE_ENV === 'development'`.  Logging is left out. -/

namespace ErrorHandler

open JS

/-- An element of `err.errors` that is not `undefined` or `null`. -/
structure ErrorItem where
  message : JSValue
  path : JSValue

/-- The field `err.errors`. -/
inductive ErrorsValue where
  | nullish : ErrorsValue
  | array (items : List (Option ErrorItem)) : ErrorsValue
  | other (first : Option ErrorItem) : ErrorsValue

/-- The error value `err`. -/
structure Err where
  name : JSValue
  message : JSValue
  statusCode : JSValue
  stack : JSValue
  errors : ErrorsValue

/-- The object handed to `res.json`; `stack` and `error` are present in development only. -/
structure Body where
  success : Bool
  message : JSValue
  stack : Option JSValue
  error : Option JSValue
  deriving DecidableEq

/-- How a call into the response object ends. -/
inductive CallResult where
  | ok : CallResult
  | threw (headersSentAfter : Bool) : CallResult
  deriving DecidableEq

/-- The response object `res`. -/
structure Response where
  headersSent : Bool
  json : JSValue → Body → CallResult
  endThrows : JSValue → JSValue → Bool

/-- What `errorHandler` has done when control leaves it. -/
inductive Outcome where
  | notSent : Outcome
  | jsonSent (status : JSValue) (body : Body) : Outcome
  | jsonFailed : Outcome
  | textSent (status : JSValue) (text : JSValue) : Outcome
  | threw : Outcome
  deriving DecidableEq

/-- The string an array element contributes to `join`; `none` when its conversion throws. -/
def joinElement (toStr : JSValue → Option String) (v : JSValue) : Option String :=
  if v.nullish then some "" else toStr v

/-- The strings the elements of an array contribute to `join`, converted from left to right;
`none` when a conversion throws. -/
def joinParts (toStr : JSValue → Option String) : List JSValue → Option (List String)
  | [] => some []
  | v :: vs =>
    match joinElement toStr v with
    | none => none
    | some s =>
      match joinParts toStr vs with
      | none => none
      | some ss => some (s :: ss)

/-- The call `errors.join(', ')`; `none` when it throws. -/
def join (toStr : JSValue → Option String) (errors : List JSValue) : Option String :=
  match joinParts toStr errors with
  | none => none
  | some parts => some (", ".intercalate parts)

/-- The expression `err.errors?.map(e => e.message) || [err.message]`; `none` when it throws
a `TypeError`. -/
def validationErrors (err : Err) : Option (List JSValue) :=
  match err.errors with
  | .nullish => some [err.message]
  | .array items =>
    if items.all Option.isSome then some (items.filterMap (fun e => e.map (fun i => i.message)))
    else none
  | .other _ => none

/-- The expression `err.errors?.[0]?.path`. -/
def firstPath (err : Err) : JSValue :=
  match err.errors with
  | .nullish => .undefined
  | .array [] => .undefined
  | .array (none :: _) => .undefined
  | .array (some item :: _) => item.path
  | .other none => .undefined
  | .other (some item) => item.path

/-- Lines 13 to 63: the value of `statusCode` when control leaves these lines, and the value
of `message`, or `none` in its place when line 19, 20 or 27 throws a `TypeError`. -/
def classify (toStr : JSValue → Option String) (err : Err) : JSValue × Option JSValue :=
  let statusCode := err.statusCode.or (JSValue.ofNat 500)
  let message := err.message.or (.str "Internal Server Error")
  let validation : JSValue × Option JSValue :=
    if err.name = .str "SequelizeValidationError" then
      (JSValue.ofNat 400,
        match validationErrors err with
        | none => none
        | some errors =>
          match join toStr errors with
          | none => none
          | some joined => some (.str ("Validation error: " ++ joined)))
    else (statusCode, some message)
  match validation with
  | (statusCode, none) => (statusCode, none)
  | (statusCode, some message) =>
    let unique : JSValue × Option JSValue :=
      if err.name = .str "SequelizeUniqueConstraintError" then
        let field := (firstPath err).or (.str "field")
        (JSValue.ofNat 409,
          match toStr field with
          | none => none
          | some text =>
            some (.str (text ++ " already exists. Please choose a different " ++ text ++ ".")))
      else (statusCode, some message)
    match unique with
    | (statusCode, none) => (statusCode, none)
    | (statusCode, some message) =>
      let (statusCode, message) :=
        if err.name = .str "SequelizeDatabaseError" then
          (JSValue.ofNat 400, JSValue.str "Database error occurred. Please try again.")
        else (statusCode, message)
      let (statusCode, message) :=
        if err.name = .str "SequelizeConnectionError" then
          (JSValue.ofNat 503, JSValue.str "Database connection error. Please try again later.")
        else (statusCode, message)
      let (statusCode, message) :=
        if err.name = .str "SequelizeForeignKeyConstraintError" then
          (JSValue.ofNat 400, JSValue.str "Invalid reference")
        else (statusCode, message)
      let (statusCode, message) :=
        if err.name = .str "SequelizeCastError" ∨ err.name = .str "CastError" then
          (JSValue.ofNat 400, JSValue.str "Invalid resource ID")
        else (statusCode, message)
      let (statusCode, message) :=
        if err.name = .str "JsonWebTokenError" then
          (JSValue.ofNat 401, JSValue.str "Invalid token")
        else (statusCode, message)
      let (statusCode, message) :=
        if err.name = .str "TokenExpiredError" then
          (JSValue.ofNat 401, JSValue.str "Token expired")
        else (statusCode, message)
      (statusCode, some message)

/-- The object literal handed to `res.json`. -/
def responseBody (development : Bool) (err : Err) (message : JSValue) : Body :=
  { success := false
    message := message
    stack := if development then some err.stack else none
    error := if development then some err.name else none }

/-- The function `errorHandler`. -/
def errorHandler (development : Bool) (toStr : JSValue → Option String) (err : Err)
    (res : Response) : Outcome :=
  match classify toStr err with
  | (_, none) => .threw
  | (statusCode, some message) =>
    if !res.headersSent then
      match res.json statusCode (responseBody development err message) with
      | .ok => .jsonSent statusCode (responseBody development err message)
      | .threw headersSentAfter =>
        if !headersSentAfter then
          if res.endThrows statusCode message then .threw
          else .textSent statusCode message
        else .jsonFailed
    else .notSent

/-- The conversion to a string used in the concrete instances: strings as they are, the
other primitives by a fixed word, and a `TypeError` for every other value. -/
def sampleToStr : JSValue → Option String
  | .str s => some s
  | .undefined => some "undefined"
  | .null => some "null"
  | .bool true => some "true"
  | .bool false => some "false"
  | .num _ => some "number"
  | .object _ => none

/-- An `Error` object with the message `boom` and no status code. -/
def plainError : Err :=
  { name := .str "Error", message := .str "boom", statusCode := .undefined,
    stack := .str "Error: boom", errors := .nullish }

/-- An object thrown with a number as its message. -/
def numericMessageError : Err :=
  { name := .undefined, message := .num (.fin 42), statusCode := .undefined,
    stack := .undefined, errors := .nullish }

/-- A validation error whose `errors` field is a string. -/
def malformedValidationError : Err :=
  { name := .str "SequelizeValidationError", message := .str "Validation error",
    statusCode := .undefined, stack := .undefined, errors := .other none }

/-- A unique-constraint error whose first item has a symbol as its `path`. -/
def symbolPathError : Err :=
  { name := .str "SequelizeUniqueConstraintError", message := .str "Validation error",
    statusCode := .undefined, stack := .undefined,
    errors := .array [some { message := .str "email must be unique",
                             path := .object "Symbol(email)" }] }

/-- A Sequelize validation error with two items. -/
def validationError : Err :=
  { name := .str "SequelizeValidationError", message := .str "Validation error",
    statusCode := JSValue.ofNat 422, stack := .undefined,
    errors := .array [some { message := .str "Username cannot be empty", path := .str "username" },
      some { message := .str "Email cannot be empty", path := .str "email" }] }

/-- An application error carrying the status code 404. -/
def notFoundError : Err :=
  { name := .str "Error", message := .str "Not found", statusCode := JSValue.ofNat 404,
    stack := .undefined, errors := .nullish }

/-- A response whose headers are unsent and whose calls succeed. -/
def freshResponse : Response :=
  { headersSent := false, json := fun _ _ => .ok, endThrows := fun _ _ => false }

/-- A response whose `json` throws before any header is sent and whose `end` works. -/
def jsonThrowsResponse : Response :=
  { headersSent := false, json := fun _ _ => .threw false, endThrows := fun _ _ => false }

/-- A response whose `json` and `end` both throw. -/
def brokenResponse : Response :=
  { headersSent := false, json := fun _ _ => .threw false, endThrows := fun _ _ => true }

/-- The status as the documentation of the handler describes it: a function of `err.name`
and `err.statusCode`, written independently of `classify`. -/
def expectedStatus (name statusCode : JSValue) : JSValue :=
  if name = .str "SequelizeValidationError" ∨ name = .str "SequelizeDatabaseError" ∨
      name = .str "SequelizeForeignKeyConstraintError" ∨ name = .str "SequelizeCastError" ∨
      name = .str "CastError" then JSValue.ofNat 400
  else if name = .str "SequelizeUniqueConstraintError" then JSValue.ofNat 409
  else if name = .str "SequelizeConnectionError" then JSValue.ofNat 503
  else if name = .str "JsonWebTokenError" ∨ name = .str "TokenExpiredError" then
    JSValue.ofNat 401
  else if statusCode.truthy then statusCode
  else JSValue.ofNat 500

/-- Whether lines 19, 20 and 27 run without a `TypeError`: for a Sequelize validation error,
`err.errors` is `undefined`, `null` or an array of objects and `join` converts every message;
for a unique-constraint error, the field converts to a string; always for another error. -/
def Err.wellFormed (toStr : JSValue → Option String) (err : Err) : Bool :=
  if err.name = .str "SequelizeValidationError" then
    match validationErrors err with
    | none => false
    | some errors => (join toStr errors).isSome
  else if err.name = .str "SequelizeUniqueConstraintError" then
    (toStr ((firstPath err).or (.str "field"))).isSome
  else true

/-- The names the handler tests `err.name` against. -/
def handledNames : List String :=
  ["SequelizeValidationError", "SequelizeUniqueConstraintError", "SequelizeDatabaseError",
    "SequelizeConnectionError", "SequelizeForeignKeyConstraintError", "SequelizeCastError",
    "CastError", "JsonWebTokenError", "TokenExpiredError"]

end ErrorHandler

/-! # `backend/src/middleware/authMiddleware.js` and `backend/src/controllers/authController.js`

* The table `users` is a list of rows; `User.findByPk` finds the row with the given `id` and
  `user.save()` writes the row back.  Either call may fail with a database error, which is
  given by a fault parameter; a failed `save` leaves the table as it was.
* `jwt.verify` and `jwt.sign` belong to the library `jsonwebtoken` and are parameters.
  `verify` either returns the decoded payload, of which only `userId` is read, or throws an
  error with a name.
* `res.status(..).json(..)` and `next()` are taken not to throw.  Logging is left out. -/

namespace Auth

open JS

/-- A row of the table `users`. -/
structure User where
  id : Nat
  username : String
  email : String
  refreshToken : Option String
  deriving DecidableEq

/-- The table `users`. -/
abbrev Store := List User

/-- The row `User.findByPk(id)` resolves to, `none` for `null`. -/
def Store.findByPk (db : Store) (id : Option Nat) : Option User :=
  match id with
  | none => none
  | some i => db.find? (fun u => u.id == i)

/-- The table after `user.save()` has written the row `user`. -/
def Store.save (db : Store) (user : User) : Store :=
  db.map (fun row => if row.id == user.id then user else row)

/-- The result of `jwt.verify(token, secret)`: the `userId` of the decoded payload (`none`
when the payload holds no usable id), or the name of the error thrown. -/
inductive VerifyResult where
  | decoded (userId : Option Nat) : VerifyResult
  | threw (name : String) : VerifyResult
  deriving DecidableEq

/-- A JSON answer: the status, and the fields `success`, `message`, `code` and
`data.tokens` of the body. -/
structure Reply where
  status : Nat
  success : Bool
  message : Option String
  code : Option String
  tokens : Option (String × String)
  deriving DecidableEq

/-- The answer `res.status(status).json(..)` with `success: false` and the given `message`. -/
def errorReply (status : Nat) (message : String) : Reply :=
  { status := status, success := false, message := some message, code := none, tokens := none }

/-! ## `authenticate` -/

/-- The value `req.headers.authorization`: absent, a string, or a value that is not a string
(and has no method `startsWith`). -/
inductive HeaderValue where
  | undefined : HeaderValue
  | str (s : String) : HeaderValue
  | other (truthy : Bool) : HeaderValue
  deriving DecidableEq

/-- What `authenticate` depends on besides the request. -/
structure AccessEnv where
  verify : String → VerifyResult
  db : Store
  findThrows : Option String

/-- What `authenticate` has done when its promise settles. -/
structure AuthOutcome where
  nextCalls : Nat
  user : Option User
  response : Option Reply
  deriving DecidableEq

/-- The method `String.prototype.startsWith` with one argument. -/
def startsWith (s start : String) : Bool :=
  start.toList.isPrefixOf s.toList

/-- The method `String.prototype.substring` with one argument. -/
def substring (s : String) (n : Nat) : String :=
  String.mk (s.toList.drop n)

/-- The outcome of a `return res.status(..).json(..)`: an answer, no `next()`. -/
def respond (r : Reply) : AuthOutcome :=
  { nextCalls := 0, user := none, response := some r }

/-- The inner `catch` block of `authenticate` for an error of the given name. -/
def authCatch (name : String) : AuthOutcome :=
  if name = "TokenExpiredError" then
    respond
      { status := 401
        success := false
        message := some "Token has expired. Please refresh your session."
        code := some "TOKEN_EXPIRED"
        tokens := none }
  else respond (errorReply 401 "Invalid token. Please authenticate again.")

/-- The function `authenticate`. -/
def authenticate (env : AccessEnv) (authorization : HeaderValue) : AuthOutcome :=
  match authorization with
  | .undefined =>
    respond (errorReply 401 "Authentication required. Please provide a valid token.")
  | .other false =>
    respond (errorReply 401 "Authentication required. Please provide a valid token.")
  | .other true =>
    -- `authHeader.startsWith` is not a function: the outer `catch`
    respond (errorReply 500 "Authentication error. Please try again.")
  | .str authHeader =>
    if authHeader = "" ∨ !(startsWith authHeader "Bearer ") then
      respond (errorReply 401 "Authentication required. Please provide a valid token.")
    else
      let token := substring authHeader 7
      match env.verify token with
      | .threw name => authCatch name
      | .decoded userId =>
        match env.findThrows with
        | some name => authCatch name
        | none =>
          match env.db.findByPk userId with
          | none => respond (errorReply 401 "User not found. Token is invalid.")
          | some user => { nextCalls := 1, user := some user, response := none }

/-! ## `refreshToken` and `logout` -/

/-- What the controller depends on besides the request: the two secrets of
`process.env`, `jwt.verify` with the refresh secret, `jwt.sign` for the two tokens of a user,
and the faults of `jwt.sign` and of the database (the name of the error thrown, if any). -/
structure RefreshEnv where
  accessSecretSet : Bool
  refreshSecretSet : Bool
  verify : String → VerifyResult
  signAccess : Nat → String
  signRefresh : Nat → String
  signThrows : Option String
  findThrows : Option String
  saveThrows : Option String

/-- How a handler wrapped in `asyncHandler` ends: with an answer, or with an error handed to
`next` for the error-handling middleware. -/
inductive HandlerResult where
  | reply (r : Reply) : HandlerResult
  | passedToNext (name : String) : HandlerResult
  deriving DecidableEq

/-- The function `generateTokens`: the pair `accessToken`, `refreshToken`, or the name of the
error it throws (an `Error` when a secret is not configured, or the error of `jwt.sign`). -/
def generateTokens (env : RefreshEnv) (userId : Nat) : Except String (String × String) :=
  if !env.accessSecretSet ∨ !env.refreshSecretSet then .error "Error"
  else
    match env.signThrows with
    | some name => .error name
    | none => .ok (env.signAccess userId, env.signRefresh userId)

/-- The `catch` block of `refreshToken` for an error of the given name. -/
def refreshCatch (name : String) : HandlerResult :=
  if name = "JsonWebTokenError" ∨ name = "TokenExpiredError" then
    .reply (errorReply 401 "Invalid or expired refresh token")
  else .passedToNext name

/-- The handler `refreshToken`: the table afterwards and how the handler ends. -/
def refreshToken (env : RefreshEnv) (db : Store) (token : JSValue) : Store × HandlerResult :=
  if !token.truthy then
    (db, .reply (errorReply 400 "Refresh token is required"))
  else
    match token with
    | .str token =>
      if !env.refreshSecretSet then (db, refreshCatch "Error")
      else
        match env.verify token with
        | .threw name => (db, refreshCatch name)
        | .decoded userId =>
          match env.findThrows with
          | some name => (db, refreshCatch name)
          | none =>
            match db.findByPk userId with
            | none =>
              (db, .reply (errorReply 401 "Invalid refresh token"))
            | some user =>
              if user.refreshToken ≠ some token then
                (db, .reply (errorReply 401 "Invalid refresh token"))
              else
                match generateTokens env user.id with
                | .error name => (db, refreshCatch name)
                | .ok (accessToken, newRefreshToken) =>
                  match env.saveThrows with
                  | some name => (db, refreshCatch name)
                  | none =>
                    (db.save { user with refreshToken := some newRefreshToken },
                      .reply
                        { status := 200
                          success := true
                          message := none
                          code := none
                          tokens := some (accessToken, newRefreshToken) })
    | _ =>
      (db, .reply (errorReply 400 "Refresh token must be a string"))

/-- The handler `logout` for the authenticated user `req.user.id`: the table afterwards and
the answer.  Both the `try` and the `catch` branch answer with the same body. -/
def logout (findThrows saveThrows : Option String) (db : Store) (userId : Nat) :
    Store × Reply :=
  let success : Reply :=
    { status := 200
      success := true
      message := some "Logout successful"
      code := none
      tokens := none }
  match findThrows with
  | some _ => (db, success)
  | none =>
    match db.findByPk (some userId) with
    | none => (db, success)
    | some user =>
      match saveThrows with
      | some _ => (db, success)
      | none => (db.save { user with refreshToken := none }, success)

/-- A user whose stored refresh token is `old-token`. -/
def ada : User :=
  { id := 1, username := "ada", email := "ada@example.com", refreshToken := some "old-token" }

/-- A table with that one user. -/
def oneUser : Store :=
  [ada]

/-- A `jwt.verify` that accepts `old-token` and `good` for user 1, reports `late` as expired
and rejects the rest. -/
def sampleVerify (token : String) : VerifyResult :=
  if token = "old-token" ∨ token = "good" then .decoded (some 1)
  else if token = "late" then .threw "TokenExpiredError"
  else .threw "JsonWebTokenError"

/-- An environment of `authenticate` without faults. -/
def sampleAccessEnv : AccessEnv :=
  { verify := sampleVerify, db := oneUser, findThrows := none }

/-- An environment of the controller with both secrets set and no faults. -/
def sampleRefreshEnv : RefreshEnv :=
  { accessSecretSet := true, refreshSecretSet := true, verify := sampleVerify,
    signAccess := fun _ => "new-access", signRefresh := fun _ => "new-refresh",
    signThrows := none, findThrows := none, saveThrows := none }

/-- The same environment without `JWT_REFRESH_SECRET`. -/
def noSecretEnv : RefreshEnv :=
  { sampleRefreshEnv with refreshSecretSet := false }

/-- The same environment with a database that refuses the lookup. -/
def databaseDownEnv : RefreshEnv :=
  { sampleRefreshEnv with findThrows := some "SequelizeConnectionError" }

/-- The answer of `logout`. -/
def logoutReply : Reply :=
  { status := 200
    success := true
    message := some "Logout successful"
    code := none
    tokens := none }

end Auth

/-! # `backend/src/middleware/validator.js`

* `validationResult(req)` is the list of the errors the validation chains have recorded, in
  the order of the chains; `validate` takes that list.
* The chains are built from `express-validator`.  A chain converts the field to a string,
  applies its sanitizers and runs every validator; each validator that fails records one
  error with the message given by `withMessage`.  `optional()` skips the chain when the field
  is `undefined`.  A sanitizer writes its result back to `req.body`.
* The string functions of the library are parameters (`Library`): the conversion of a field
  to a string, `trim`, the pattern and the value of a float, and `isISO8601`.  `notEmpty`
  accepts every string but the empty one.  `isLength` with `max` accepts a string whose
  length is at most `max`, where the length counts a surrogate pair once and does not count
  the variation selectors U+FE0F and U+FE0E.  `isFloat` with `min` and `max` accepts a string
  that has the float pattern and whose value `v` has `v >= min` and `v <= max`.
* A string is a list of code points, so a surrogate pair is one character of it. -/

namespace Validator

open JS Recommendations

/-- An entry of `errors.array()`. -/
structure ValidationError where
  path : String
  msg : JSValue
  deriving DecidableEq

/-- The body of the 400 answer of `validate`. -/
structure ValidateReply where
  status : Nat
  success : Bool
  message : JSValue
  errors : List ValidationError
  deriving DecidableEq

/-- What `validate` has done when it returns. -/
structure ValidateOutcome where
  nextCalls : Nat
  response : Option ValidateReply
  deriving DecidableEq

/-- The expression `firstError?.msg`. -/
def firstMsg (errors : List ValidationError) : JSValue :=
  match errors.head? with
  | none => .undefined
  | some firstError => firstError.msg

/-- The middleware `validate`, given `validationResult(req)`. -/
def validate (errors : List ValidationError) : ValidateOutcome :=
  if !errors.isEmpty then
    let message := (firstMsg errors).or (.str "Validation failed")
    { nextCalls := 0
      response := some { status := 400, success := false, message := message, errors := errors } }
  else { nextCalls := 1, response := none }

/-- The string functions of `express-validator` and `validator.js`. -/
structure Library where
  toString : JSValue → String
  trim : String → String
  floatPattern : String → Bool
  parseFloat : String → JSNumber
  isISO8601 : String → Bool

/-- The JavaScript test `x >= k` for a finite literal `k`. -/
def geNumber (x : JSNumber) (k : ℚ) : Bool :=
  match x with
  | .nan => false
  | .negInf => false
  | .posInf => true
  | .fin q => decide (k ≤ q)

/-- The JavaScript test `x <= k` for a finite literal `k`. -/
def leNumber (x : JSNumber) (k : ℚ) : Bool :=
  match x with
  | .nan => false
  | .negInf => true
  | .posInf => false
  | .fin q => decide (q ≤ k)

/-- The validator `isFloat` with the options `min` and `max`. -/
def isFloat (lib : Library) (s : String) (min max : ℚ) : Bool :=
  lib.floatPattern s && geNumber (lib.parseFloat s) min && leNumber (lib.parseFloat s) max

/-- Whether a character is one of the variation selectors U+FE0E and U+FE0F. -/
def isVariationSelector (c : Char) : Bool :=
  c.toNat == 0xFE0E || c.toNat == 0xFE0F

/-- The length `isLength` compares with its bounds: the number of code points that are not
variation selectors. -/
def countedLength (s : String) : Nat :=
  (s.toList.filter (fun c => !isVariationSelector c)).length

/-- The validator `isLength` with the option `max`. -/
def isLength (s : String) (max : Nat) : Bool :=
  decide (countedLength s ≤ max)

/-- The fields of `req.body` of a usage-log request. -/
structure UsageBody where
  appName : JSValue
  minutesSpent : JSValue
  date : JSValue
  deriving DecidableEq

/-- The chain `body('appName').trim().notEmpty()...isLength(max 100)...`: the trimmed value,
which is written back to `req.body.appName`, and the errors recorded. -/
def appNameChain (lib : Library) (body : UsageBody) : String × List ValidationError :=
  let value := lib.trim (lib.toString body.appName)
  let notEmpty : List ValidationError :=
    if value ≠ "" then [] else [{ path := "appName", msg := .str "App name is required" }]
  let isLength : List ValidationError :=
    if isLength value 100 then []
    else [{ path := "appName", msg := .str "App name cannot exceed 100 characters" }]
  (value, notEmpty ++ isLength)

/-- The chain `body('minutesSpent').isFloat(min 0, max 1440)...`: the errors recorded. -/
def minutesSpentChain (lib : Library) (body : UsageBody) : List ValidationError :=
  if isFloat lib (lib.toString body.minutesSpent) 0 1440 then []
  else [{ path := "minutesSpent", msg := .str "Minutes spent must be between 0 and 1440" }]

/-- The chain `body('date').optional().isISO8601()...`: the errors recorded. -/
def dateChain (lib : Library) (body : UsageBody) : List ValidationError :=
  if body.date = .undefined then []
  else if lib.isISO8601 (lib.toString body.date) then []
  else [{ path := "date", msg := .str "Date must be a valid ISO 8601 date" }]

/-- The middleware list `validateUsageLog`: the three chains, then `validate`.  The result
is `req.body` as the next handler sees it, and what `validate` has done. -/
def validateUsageLog (lib : Library) (body : UsageBody) : UsageBody × ValidateOutcome :=
  let (appName, appNameErrors) := appNameChain lib body
  let body := { body with appName := .str appName }
  let errors := appNameErrors ++ minutesSpentChain lib body ++ dateChain lib body
  (body, validate errors)

/-- The digits of a string as a number, `none` when a character is not a digit. -/
def digitsValue (cs : List Char) : Option Nat :=
  cs.foldl (fun acc c =>
    match acc with
    | none => none
    | some n => if c.isDigit then some (10 * n + (c.toNat - 48)) else none) (some 0)

/-- Whether a string is a date `yyyy-mm-dd` with a month from 01 to 12 and a day from 01 to
31. -/
def isoDateShape (s : String) : Bool :=
  match s.toList with
  | [y1, y2, y3, y4, d1, m1, m2, d2, a1, a2] =>
    [y1, y2, y3, y4].all Char.isDigit && d1 == '-' && d2 == '-' &&
      (match digitsValue [m1, m2], digitsValue [a1, a2] with
        | some month, some day => 1 ≤ month && month ≤ 12 && 1 ≤ day && day ≤ 31
        | _, _ => false)
  | _ => false

/-- The conversion of a field to a string in the small library: a string as it is, an
integer in decimal digits, a boolean by its word, and the empty string for `undefined`,
`null` and `NaN`. -/
def sampleToString : JSValue → String
  | .str s => s
  | .undefined => ""
  | .null => ""
  | .bool true => "true"
  | .bool false => "false"
  | .num .nan => ""
  | .num .posInf => "Infinity"
  | .num .negInf => "-Infinity"
  | .num (.fin q) =>
    if q.den = 1 then
      if 0 ≤ q.num then Nat.repr q.num.toNat else "-" ++ Nat.repr (-q.num).toNat
    else ""
  | .object _ => "[object Object]"

/-- A small library for the concrete instances.  It agrees with the library on the fields
used below and covers less than the library does: `trim` removes blanks only, a float is a
non-empty string of digits, a date is of the form `yyyy-mm-dd`, and a number that is not an
integer has no string form here. -/
def sampleLibrary : Library :=
  { toString := sampleToString
    trim := fun s =>
      String.mk ((s.toList.dropWhile (fun c => c == ' ')).reverse.dropWhile
        (fun c => c == ' ')).reverse
    floatPattern := fun s => s.toList != [] && s.toList.all Char.isDigit
    parseFloat := fun s =>
      match digitsValue s.toList with
      | some n => .fin n
      | none => .nan
    isISO8601 := isoDateShape }

/-- A name of 100 letters followed by the variation selector U+FE0F: 101 code points. -/
def selectorName : String :=
  String.mk (List.replicate 100 'a' ++ [Char.ofNat 0xFE0F])

/-- A usage entry with that name. -/
def selectorEntry : UsageBody :=
  { appName := .str selectorName, minutesSpent := .num (.fin 30), date := .undefined }

/-- A usage entry whose minutes are given as a string. -/
def stringMinutesEntry : UsageBody :=
  { appName := .str "Instagram", minutesSpent := .str "30", date := .undefined }

/-- A usage entry dated far in the future. -/
def futureEntry : UsageBody :=
  { appName := .str " Instagram ", minutesSpent := .num (.fin 30), date := .str "2999-12-31" }

/-- A usage entry of today or earlier. -/
def plainEntry : UsageBody :=
  { appName := .str "Instagram", minutesSpent := .num (.fin 30), date := .str "2024-01-15" }

/-- A usage entry of 1500 minutes. -/
def longEntry : UsageBody :=
  { appName := .str "Instagram", minutesSpent := .num (.fin 1500), date := .undefined }

end Validator

namespace Recommendations

/-! ## Lemmas on the collected array -/

theorem level_not_both (a : Analytics) :
    ¬ (a.riskScore.level = "high" ∧ a.riskScore.level = "moderate") := by
  rintro ⟨h, m⟩
  rw [h] at m
  exact absurd m (by decide)

theorem trend_not_both (a : Analytics) :
    ¬ (a.weeklyStats.trend = "increasing" ∧ a.weeklyStats.trend = "decreasing") := by
  rintro ⟨h, m⟩
  rw [h] at m
  exact absurd m (by decide)

theorem collected_eq_rulesFired (a : Analytics) :
    collected a = rulesFired (decide (a.riskScore.level = "high"))
      (decide (a.riskScore.level = "moderate")) (a.weeklyStats.averageDailyMinutes.gt 240)
      (decide (a.weeklyStats.trend = "increasing")) (decide (a.weeklyStats.trend = "decreasing"))
      (a.weeklyStats.daysActive.strictEq 7) (a.peakMinutes.gt 360) := by
  have hm := level_not_both a
  have id := trend_not_both a
  unfold collected rulesFired push
  by_cases h : a.riskScore.level = "high" <;> by_cases m : a.riskScore.level = "moderate" <;>
  by_cases b : a.weeklyStats.averageDailyMinutes.gt 240 = true <;>
  by_cases i : a.weeklyStats.trend = "increasing" <;>
  by_cases d : a.weeklyStats.trend = "decreasing" <;>
  by_cases v : a.weeklyStats.daysActive.strictEq 7 = true <;>
  by_cases p : a.peakMinutes.gt 360 = true <;>
  first
    | (exfalso; apply hm; constructor <;> assumption)
    | (exfalso; apply id; constructor <;> assumption)
    | simp [h, m, b, i, d, v, p]

/-- Every run is described by seven booleans, one per guard, of which "high" and "moderate"
are never both set and "increasing" and "decreasing" are never both set. -/
theorem guards_normal_form (a : Analytics) :
    ∃ h m b i d v p : Bool,
      (a.riskScore.level = "high" ↔ h = true) ∧
      (a.riskScore.level = "moderate" ↔ m = true) ∧
      a.weeklyStats.averageDailyMinutes.gt 240 = b ∧
      (a.weeklyStats.trend = "increasing" ↔ i = true) ∧
      (a.weeklyStats.trend = "decreasing" ↔ d = true) ∧
      a.weeklyStats.daysActive.strictEq 7 = v ∧
      a.peakMinutes.gt 360 = p ∧
      (h && m) = false ∧ (i && d) = false ∧
      collected a = rulesFired h m b i d v p ∧
      generateRecommendations a = (rulesFired h m b i d v p).take 5 := by
  refine ⟨decide (a.riskScore.level = "high"), decide (a.riskScore.level = "moderate"),
    a.weeklyStats.averageDailyMinutes.gt 240, decide (a.weeklyStats.trend = "increasing"),
    decide (a.weeklyStats.trend = "decreasing"), a.weeklyStats.daysActive.strictEq 7,
    a.peakMinutes.gt 360, by simp, by simp, rfl, by simp, by simp, rfl, rfl, ?_, ?_,
    collected_eq_rulesFired a, ?_⟩
  · have := level_not_both a
    by_cases h : a.riskScore.level = "high" <;> by_cases m : a.riskScore.level = "moderate" <;>
      simp_all
  · have := trend_not_both a
    by_cases h : a.weeklyStats.trend = "increasing" <;>
      by_cases m : a.weeklyStats.trend = "decreasing" <;> simp_all
  · rw [generateRecommendations, collected_eq_rulesFired]

/-- The output is strictly increasing in the rank of its types. -/
theorem output_rank_increasing (a : Analytics) :
    (generateRecommendations a).Pairwise (fun r s => typeRank r.type < typeRank s.type) := by
  obtain ⟨h, m, b, i, d, v, p, -, -, -, -, -, -, -, x1, x2, -, hg⟩ := guards_normal_form a
  rw [hg]
  clear hg
  revert x1 x2
  cases h <;> cases m <;> cases b <;> cases i <;> cases d <;> cases v <;> cases p <;> decide

/-- Every type in the output is one of the nine types of `typeOrder`. -/
theorem output_type_known (a : Analytics) :
    ∀ r ∈ generateRecommendations a, r.type ∈ typeOrder := by
  obtain ⟨h, m, b, i, d, v, p, -, -, -, -, -, -, -, x1, x2, -, hg⟩ := guards_normal_form a
  rw [hg]
  clear hg
  revert x1 x2
  cases h <;> cases m <;> cases b <;> cases i <;> cases d <;> cases v <;> cases p <;> decide

/-- Every entry of the collected array is one of the nine payloads of the source. -/
theorem rulesFired_mem_ruleTable (h m b i d v p : Bool) :
    ∀ r ∈ rulesFired h m b i d v p, r ∈ ruleTable := by
  have fallback : ∀ core : List Recommendation, (∀ r ∈ core, r ∈ ruleTable) →
      ∀ r ∈ (if core.length = 0 then [generalRec] else core), r ∈ ruleTable := by
    intro core hcore r hr
    by_cases hlen : core.length = 0
    · rw [if_pos hlen, List.mem_singleton] at hr
      subst hr
      simp [ruleTable]
    · rw [if_neg hlen] at hr
      exact hcore r hr
  have one : ∀ (c : Bool) (x : Recommendation), x ∈ ruleTable →
      ∀ r ∈ (if c then [x] else []), r ∈ ruleTable := by
    intro c x hx r hr
    cases c
    · simp at hr
    · simp at hr
      subst hr
      exact hx
  apply fallback
  intro r hr
  simp only [List.mem_append] at hr
  rcases hr with ((((((hr | hr) | hr) | hr) | hr) | hr) | hr)
  · cases h
    · simp at hr
    · simp at hr
      rcases hr with hr | hr <;> subst hr <;> simp [ruleTable]
  · exact one m balanceRec (by simp [ruleTable]) r hr
  · exact one b breakRec (by simp [ruleTable]) r hr
  · exact one i trendRec (by simp [ruleTable]) r hr
  · exact one d positiveRec (by simp [ruleTable]) r hr
  · exact one v varietyRec (by simp [ruleTable]) r hr
  · exact one p peakRec (by simp [ruleTable]) r hr

/-- Every entry of the output is one of the nine payloads of the source. -/
theorem output_mem_ruleTable (a : Analytics) :
    ∀ r ∈ generateRecommendations a, r ∈ ruleTable := by
  intro r hr
  rw [generateRecommendations, collected_eq_rulesFired] at hr
  exact rulesFired_mem_ruleTable _ _ _ _ _ _ _ r (List.mem_of_mem_take hr)

/-- Two payloads of the source with the same type are the same payload. -/
theorem ruleTable_type_injective :
    ∀ r ∈ ruleTable, ∀ s ∈ ruleTable, r.type = s.type → r = s := by
  intro r hr s hs
  simp only [ruleTable, List.mem_cons, List.mem_singleton, List.not_mem_nil, or_false] at hr hs
  rcases hr with rfl | rfl | rfl | rfl | rfl | rfl | rfl | rfl | rfl <;>
    rcases hs with rfl | rfl | rfl | rfl | rfl | rfl | rfl | rfl | rfl <;>
    first
      | (intro _; rfl)
      | (intro hne; exact absurd hne (by decide))

/-- Every payload of the source has a type of `typeOrder`, a priority of `priorities`, and a
title and a message that are not empty. -/
theorem ruleTable_well_formed :
    ∀ r ∈ ruleTable, r.type ∈ typeOrder ∧ r.priority ∈ priorities ∧ r.title ≠ "" ∧
      r.message ≠ "" := by
  intro r hr
  simp only [ruleTable, List.mem_cons, List.mem_singleton, List.not_mem_nil, or_false] at hr
  rcases hr with rfl | rfl | rfl | rfl | rfl | rfl | rfl | rfl | rfl <;> decide

/-! ## Theorems -/

/-- C1: for every analytics input the list returned by `generateRecommendations` has at most
five entries. -/
theorem generateRecommendations_length_le_five (a : Analytics) :
    (generateRecommendations a).length ≤ 5 := by
  unfold generateRecommendations
  rw [List.length_take]
  exact Nat.min_le_left 5 _

/-- C2: when no rule guard holds the output is exactly one recommendation, of type general,
priority low and not actionable; when at least one guard holds the output has no entry of
type general. -/
theorem general_iff_no_guard (a : Analytics) :
    ((¬ a.riskScore.level = "high" ∧ ¬ a.riskScore.level = "moderate" ∧
        a.weeklyStats.averageDailyMinutes.gt 240 = false ∧
        ¬ a.weeklyStats.trend = "increasing" ∧ ¬ a.weeklyStats.trend = "decreasing" ∧
        a.weeklyStats.daysActive.strictEq 7 = false ∧ a.peakMinutes.gt 360 = false) →
      ∃ r, generateRecommendations a = [r] ∧ r.type = "general" ∧ r.priority = "low" ∧
        r.actionable = false) ∧
    ((a.riskScore.level = "high" ∨ a.riskScore.level = "moderate" ∨
        a.weeklyStats.averageDailyMinutes.gt 240 = true ∨
        a.weeklyStats.trend = "increasing" ∨ a.weeklyStats.trend = "decreasing" ∨
        a.weeklyStats.daysActive.strictEq 7 = true ∨ a.peakMinutes.gt 360 = true) →
      ∀ r ∈ generateRecommendations a, r.type ≠ "general") := by
  obtain ⟨h, m, b, i, d, v, p, hh, hm, hb, hi, hd, hv, hp, x1, x2, -, hg⟩ :=
    guards_normal_form a
  rw [hg, hh, hm, hb, hi, hd, hv, hp]
  clear hg hh hm hb hi hd hv hp
  constructor
  · rintro ⟨h1, h2, h3, h4, h5, h6, h7⟩
    refine ⟨generalRec, ?_, rfl, rfl, rfl⟩
    simp only [Bool.not_eq_true] at h1 h2 h4 h5
    subst h1 h2 h3 h4 h5 h6 h7
    rfl
  · revert x1 x2
    cases h <;> cases m <;> cases b <;> cases i <;> cases d <;> cases v <;> cases p <;> decide

/-- Concrete instance: the light week fires no rule and gets the fallback alone; the week of
seven days of 300 minutes fires rules and gets no fallback. -/
theorem general_iff_no_guard_witness :
    (∃ r, generateRecommendations lightWeek = [r] ∧ r.type = "general" ∧ r.priority = "low" ∧
        r.actionable = false) ∧
    (∀ r ∈ generateRecommendations sevenDays300, r.type ≠ "general") :=
  ⟨(general_iff_no_guard lightWeek).1 (by decide),
   (general_iff_no_guard sevenDays300).2 (Or.inl rfl)⟩

/-- C3: the entries of the output appear in the fixed rule order usage, awareness, balance,
break, trend, positive, variety, peak, general: every type of the output is in that list, the
output is strictly increasing in that order, of two entries the one whose type comes earlier
is at the smaller index, and in particular an entry of type usage or awareness always
precedes the entry of type break. -/
theorem rule_order_preserved (a : Analytics) :
    (∀ r ∈ generateRecommendations a, r.type ∈ typeOrder) ∧
    (generateRecommendations a).Pairwise (fun r s => typeRank r.type < typeRank s.type) ∧
    (∀ i j : Fin (generateRecommendations a).length,
      typeRank ((generateRecommendations a).get i).type <
        typeRank ((generateRecommendations a).get j).type → i < j) ∧
    (∀ i j : Fin (generateRecommendations a).length,
      (((generateRecommendations a).get i).type = "usage" ∨
        ((generateRecommendations a).get i).type = "awareness") →
      ((generateRecommendations a).get j).type = "break" → i < j) := by
  have hs := output_rank_increasing a
  have key : ∀ i j : Fin (generateRecommendations a).length,
      typeRank ((generateRecommendations a).get i).type <
        typeRank ((generateRecommendations a).get j).type → i < j := by
    intro i j hlt
    rcases lt_trichotomy i j with hij | hij | hij
    · exact hij
    · subst hij
      exact absurd hlt (lt_irrefl _)
    · exact absurd hlt (lt_asymm (List.pairwise_iff_get.mp hs j i hij))
  refine ⟨output_type_known a, hs, key, ?_⟩
  intro i j hi hj
  apply key
  rw [hj]
  rcases hi with hi | hi <;> rw [hi] <;> decide

/-- Concrete instance: for seven days of 300 minutes at level high the output starts usage,
awareness, break, and the usage entry (index 0) stands before the break entry (index 2). -/
theorem rule_order_preserved_witness :
    (generateRecommendations sevenDays300).get ⟨0, by decide⟩ = usageRec ∧
    (generateRecommendations sevenDays300).get ⟨2, by decide⟩ = breakRec ∧
    (⟨0, by decide⟩ : Fin (generateRecommendations sevenDays300).length) < ⟨2, by decide⟩ :=
  ⟨by decide, by decide,
   (rule_order_preserved sevenDays300).2.2.2 ⟨0, by decide⟩ ⟨2, by decide⟩
     (Or.inl (by decide)) (by decide)⟩

/-- C4: the output is deduplicated by type: the list of the types of the output has no
repetition, so two positions of the output holding the same type are the same position. -/
theorem output_types_nodup (a : Analytics) :
    ((generateRecommendations a).map (fun r => r.type)).Nodup ∧
    (∀ i j : Fin (generateRecommendations a).length,
      ((generateRecommendations a).get i).type = ((generateRecommendations a).get j).type →
        i = j) := by
  have hs := output_rank_increasing a
  constructor
  · rw [List.Nodup, List.pairwise_map]
    exact hs.imp (fun hlt heq => by rw [heq] at hlt; exact lt_irrefl _ hlt)
  · intro i j heq
    rcases lt_trichotomy i j with hij | hij | hij
    · have := List.pairwise_iff_get.mp hs i j hij
      rw [heq] at this
      exact absurd this (lt_irrefl _)
    · exact hij
    · have := List.pairwise_iff_get.mp hs j i hij
      rw [heq] at this
      exact absurd this (lt_irrefl _)

/-- Concrete instance: in the output for seven days of 300 minutes, a position whose type equals
the type at position 1 is position 1. -/
theorem output_types_nodup_witness :
    (⟨1, by decide⟩ : Fin (generateRecommendations sevenDays300).length) = ⟨1, by decide⟩ ∧
    ((generateRecommendations sevenDays300).map (fun r => r.type)).Nodup :=
  ⟨(output_types_nodup sevenDays300).2 ⟨1, by decide⟩ ⟨1, by decide⟩ rfl,
   (output_types_nodup sevenDays300).1⟩

/-- C5: the level-based head of the output is fixed by `riskScore.level`: at level high the
output begins with the usage entry (priority high, actionable) followed by the awareness entry
(priority high, not actionable) and nothing after them has type usage, awareness or balance;
at level moderate the output begins with the balance entry (priority medium, actionable) and
nothing after it has one of the three types; at every other level no entry of the output has
one of the three types. -/
theorem level_head (a : Analytics) :
    (a.riskScore.level = "high" →
      ∃ u w rest, generateRecommendations a = u :: w :: rest ∧
        u.type = "usage" ∧ u.priority = "high" ∧ u.actionable = true ∧
        w.type = "awareness" ∧ w.priority = "high" ∧ w.actionable = false ∧
        ∀ r ∈ rest, r.type ≠ "usage" ∧ r.type ≠ "awareness" ∧ r.type ≠ "balance") ∧
    (a.riskScore.level = "moderate" →
      ∃ u rest, generateRecommendations a = u :: rest ∧
        u.type = "balance" ∧ u.priority = "medium" ∧ u.actionable = true ∧
        ∀ r ∈ rest, r.type ≠ "usage" ∧ r.type ≠ "awareness" ∧ r.type ≠ "balance") ∧
    (¬ a.riskScore.level = "high" → ¬ a.riskScore.level = "moderate" →
      ∀ r ∈ generateRecommendations a,
        r.type ≠ "usage" ∧ r.type ≠ "awareness" ∧ r.type ≠ "balance") := by
  obtain ⟨h, m, b, i, d, v, p, hh, hm, -, -, -, -, -, x1, x2, -, hg⟩ := guards_normal_form a
  rw [hg, hh, hm]
  clear hg hh hm
  refine ⟨?_, ?_, ?_⟩
  · intro hh
    subst hh
    refine ⟨usageRec, awarenessRec, ((rulesFired true m b i d v p).take 5).drop 2, ?_,
      rfl, rfl, rfl, rfl, rfl, rfl, ?_⟩
    · revert x1 x2
      cases m <;> cases b <;> cases i <;> cases d <;> cases v <;> cases p <;> decide
    · revert x1 x2
      cases m <;> cases b <;> cases i <;> cases d <;> cases v <;> cases p <;> decide
  · intro hm
    subst hm
    refine ⟨balanceRec, ((rulesFired h true b i d v p).take 5).drop 1, ?_, rfl, rfl, rfl, ?_⟩
    · revert x1 x2
      cases h <;> cases b <;> cases i <;> cases d <;> cases v <;> cases p <;> decide
    · revert x1 x2
      cases h <;> cases b <;> cases i <;> cases d <;> cases v <;> cases p <;> decide
  · revert x1 x2
    cases h <;> cases m <;> cases b <;> cases i <;> cases d <;> cases v <;> cases p <;> decide

/-- Concrete instance: the high week starts with usage and awareness, the moderate week starts
with balance, and the light week (level low) has none of the three types. -/
theorem level_head_witness :
    (∃ u w rest, generateRecommendations heavyWeek = u :: w :: rest ∧
        u.type = "usage" ∧ u.priority = "high" ∧ u.actionable = true ∧
        w.type = "awareness" ∧ w.priority = "high" ∧ w.actionable = false ∧
        ∀ r ∈ rest, r.type ≠ "usage" ∧ r.type ≠ "awareness" ∧ r.type ≠ "balance") ∧
    (∃ u rest, generateRecommendations moderateWeek = u :: rest ∧
        u.type = "balance" ∧ u.priority = "medium" ∧ u.actionable = true ∧
        ∀ r ∈ rest, r.type ≠ "usage" ∧ r.type ≠ "awareness" ∧ r.type ≠ "balance") ∧
    (∀ r ∈ generateRecommendations lightWeek,
        r.type ≠ "usage" ∧ r.type ≠ "awareness" ∧ r.type ≠ "balance") :=
  ⟨(level_head heavyWeek).1 rfl, (level_head moderateWeek).2.1 rfl,
   (level_head lightWeek).2.2 (by decide) (by decide)⟩

/-- C6: the output contains the break entry (priority medium, actionable) exactly when
`weeklyStats.averageDailyMinutes > 240`; for a finite average `q` that is `240 < q`, so the
boundary value 240 does not produce it; an entry of type break in the output is that entry;
and the cut to five entries never removes it. -/
theorem break_iff_average_gt_240 (a : Analytics) :
    ((∃ r ∈ generateRecommendations a, r.type = "break") ↔
      a.weeklyStats.averageDailyMinutes.gt 240 = true) ∧
    (∀ q : ℚ, a.weeklyStats.averageDailyMinutes = .fin q →
      ((∃ r ∈ generateRecommendations a, r.type = "break") ↔ 240 < q)) ∧
    (a.weeklyStats.averageDailyMinutes = .fin 240 →
      ∀ r ∈ generateRecommendations a, r.type ≠ "break") ∧
    (∀ r ∈ generateRecommendations a, r.type = "break" →
      r = breakRec ∧ r.priority = "medium" ∧ r.actionable = true) ∧
    (∀ r ∈ collected a, r.type = "break" → r ∈ generateRecommendations a) := by
  have main : ((∃ r ∈ generateRecommendations a, r.type = "break") ↔
      a.weeklyStats.averageDailyMinutes.gt 240 = true) := by
    obtain ⟨h, m, b, i, d, v, p, -, -, hb, -, -, -, -, x1, x2, -, hg⟩ := guards_normal_form a
    rw [hg, hb]
    clear hg hb
    revert x1 x2
    cases h <;> cases m <;> cases b <;> cases i <;> cases d <;> cases v <;> cases p <;> decide
  refine ⟨main, ?_, ?_, ?_, ?_⟩
  · intro q hq
    rw [main, hq]
    simp [JSNumber.gt]
  · intro hq r hr ht
    have := main.mp ⟨r, hr, ht⟩
    rw [hq] at this
    exact absurd this (by decide)
  · obtain ⟨h, m, b, i, d, v, p, -, -, -, -, -, -, -, x1, x2, -, hg⟩ := guards_normal_form a
    rw [hg]
    clear hg
    revert x1 x2
    cases h <;> cases m <;> cases b <;> cases i <;> cases d <;> cases v <;> cases p <;> decide
  · obtain ⟨h, m, b, i, d, v, p, -, -, -, -, -, -, -, x1, x2, hc, hg⟩ := guards_normal_form a
    rw [hg, hc]
    clear hg hc
    revert x1 x2
    cases h <;> cases m <;> cases b <;> cases i <;> cases d <;> cases v <;> cases p <;> decide

/-- Concrete instance: an average of 300 gives the break entry, and an average of exactly 240
(the moderate week) gives none. -/
theorem break_iff_average_gt_240_witness :
    ((∃ r ∈ generateRecommendations heavyWeek, r.type = "break") ↔ (240 : ℚ) < 300) ∧
    (∀ r ∈ generateRecommendations moderateWeek, r.type ≠ "break") :=
  ⟨(break_iff_average_gt_240 heavyWeek).2.1 300 rfl,
   (break_iff_average_gt_240 moderateWeek).2.2.1 rfl⟩

/-- C7: the output contains the trend entry (priority medium, actionable) exactly when
`weeklyStats.trend` is increasing and the positive entry (priority low, not actionable)
exactly when it is decreasing; an entry of one of these types is that entry; the two never
occur in the same output; and a stable trend produces neither. -/
theorem trend_and_positive (a : Analytics) :
    ((∃ r ∈ generateRecommendations a, r.type = "trend") ↔
      a.weeklyStats.trend = "increasing") ∧
    ((∃ r ∈ generateRecommendations a, r.type = "positive") ↔
      a.weeklyStats.trend = "decreasing") ∧
    (∀ r ∈ generateRecommendations a, r.type = "trend" →
      r = trendRec ∧ r.priority = "medium" ∧ r.actionable = true) ∧
    (∀ r ∈ generateRecommendations a, r.type = "positive" →
      r = positiveRec ∧ r.priority = "low" ∧ r.actionable = false) ∧
    ¬ ((∃ r ∈ generateRecommendations a, r.type = "trend") ∧
        (∃ r ∈ generateRecommendations a, r.type = "positive")) ∧
    (a.weeklyStats.trend = "stable" →
      ∀ r ∈ generateRecommendations a, r.type ≠ "trend" ∧ r.type ≠ "positive") := by
  have hinc : ((∃ r ∈ generateRecommendations a, r.type = "trend") ↔
      a.weeklyStats.trend = "increasing") := by
    obtain ⟨h, m, b, i, d, v, p, -, -, -, hi, -, -, -, x1, x2, -, hg⟩ := guards_normal_form a
    rw [hg, hi]
    clear hg hi
    revert x1 x2
    cases h <;> cases m <;> cases b <;> cases i <;> cases d <;> cases v <;> cases p <;> decide
  have hdec : ((∃ r ∈ generateRecommendations a, r.type = "positive") ↔
      a.weeklyStats.trend = "decreasing") := by
    obtain ⟨h, m, b, i, d, v, p, -, -, -, -, hd, -, -, x1, x2, -, hg⟩ := guards_normal_form a
    rw [hg, hd]
    clear hg hd
    revert x1 x2
    cases h <;> cases m <;> cases b <;> cases i <;> cases d <;> cases v <;> cases p <;> decide
  refine ⟨hinc, hdec, ?_, ?_, ?_, ?_⟩
  · obtain ⟨h, m, b, i, d, v, p, -, -, -, -, -, -, -, x1, x2, -, hg⟩ := guards_normal_form a
    rw [hg]
    clear hg
    revert x1 x2
    cases h <;> cases m <;> cases b <;> cases i <;> cases d <;> cases v <;> cases p <;> decide
  · obtain ⟨h, m, b, i, d, v, p, -, -, -, -, -, -, -, x1, x2, -, hg⟩ := guards_normal_form a
    rw [hg]
    clear hg
    revert x1 x2
    cases h <;> cases m <;> cases b <;> cases i <;> cases d <;> cases v <;> cases p <;> decide
  · rw [hinc, hdec]
    exact trend_not_both a
  · intro hst r hr
    constructor
    · intro ht
      have := hinc.mp ⟨r, hr, ht⟩
      rw [hst] at this
      exact absurd this (by decide)
    · intro ht
      have := hdec.mp ⟨r, hr, ht⟩
      rw [hst] at this
      exact absurd this (by decide)

/-- Concrete instance: the light week has a stable trend and gets neither the trend nor the
positive entry. -/
theorem trend_and_positive_witness :
    ∀ r ∈ generateRecommendations lightWeek, r.type ≠ "trend" ∧ r.type ≠ "positive" :=
  (trend_and_positive lightWeek).2.2.2.2.2 rfl

/-- C8: the output contains the variety entry (priority medium, actionable) exactly when
`weeklyStats.daysActive === 7`; for a finite count `q` that is `q = 7`; an entry of type
variety in the output is that entry; the cut to five entries never removes it; and seven
active days with an average of 300 minutes give both the break and the variety entry. -/
theorem variety_iff_seven_days (a : Analytics) :
    ((∃ r ∈ generateRecommendations a, r.type = "variety") ↔
      a.weeklyStats.daysActive.strictEq 7 = true) ∧
    (∀ q : ℚ, a.weeklyStats.daysActive = .fin q →
      ((∃ r ∈ generateRecommendations a, r.type = "variety") ↔ q = 7)) ∧
    (∀ r ∈ generateRecommendations a, r.type = "variety" →
      r = varietyRec ∧ r.priority = "medium" ∧ r.actionable = true) ∧
    (∀ r ∈ collected a, r.type = "variety" → r ∈ generateRecommendations a) ∧
    (a.weeklyStats.daysActive = .fin 7 → a.weeklyStats.averageDailyMinutes = .fin 300 →
      (∃ r ∈ generateRecommendations a, r.type = "break") ∧
      (∃ r ∈ generateRecommendations a, r.type = "variety")) := by
  have main : ((∃ r ∈ generateRecommendations a, r.type = "variety") ↔
      a.weeklyStats.daysActive.strictEq 7 = true) := by
    obtain ⟨h, m, b, i, d, v, p, -, -, -, -, -, hv, -, x1, x2, -, hg⟩ := guards_normal_form a
    rw [hg, hv]
    clear hg hv
    revert x1 x2
    cases h <;> cases m <;> cases b <;> cases i <;> cases d <;> cases v <;> cases p <;> decide
  refine ⟨main, ?_, ?_, ?_, ?_⟩
  · intro q hq
    rw [main, hq]
    simp [JSNumber.strictEq]
  · obtain ⟨h, m, b, i, d, v, p, -, -, -, -, -, -, -, x1, x2, -, hg⟩ := guards_normal_form a
    rw [hg]
    clear hg
    revert x1 x2
    cases h <;> cases m <;> cases b <;> cases i <;> cases d <;> cases v <;> cases p <;> decide
  · obtain ⟨h, m, b, i, d, v, p, -, -, -, -, -, -, -, x1, x2, hc, hg⟩ := guards_normal_form a
    rw [hg, hc]
    clear hg hc
    revert x1 x2
    cases h <;> cases m <;> cases b <;> cases i <;> cases d <;> cases v <;> cases p <;> decide
  · intro h7 h300
    obtain ⟨h, m, b, i, d, v, p, -, -, hb, -, -, hv, -, x1, x2, -, hg⟩ := guards_normal_form a
    rw [h7] at hv
    rw [h300] at hb
    have hv1 : v = true := by rw [← hv]; decide
    have hb1 : b = true := by rw [← hb]; decide
    subst hv1 hb1
    rw [hg]
    clear hg hv hb
    revert x1 x2
    cases h <;> cases m <;> cases i <;> cases d <;> cases p <;> decide

/-- Concrete instance: seven days of 300 minutes each yield both the break and the variety
entry. -/
theorem variety_iff_seven_days_witness :
    (∃ r ∈ generateRecommendations sevenDays300, r.type = "break") ∧
    (∃ r ∈ generateRecommendations sevenDays300, r.type = "variety") :=
  (variety_iff_seven_days sevenDays300).2.2.2.2 rfl rfl

/-- C9: with `peakMinutes > 360` the peak entry (priority high, actionable) is in the output
except in exactly one situation: level high, average above 240, trend increasing or
decreasing, and seven active days.  In that situation the output is the five entries usage,
awareness, break, trend or positive, variety, and the peak entry is the only one cut (the
collected array is the output followed by the peak entry).  In every other situation the cut
removes nothing: the output is the whole collected array.  Without `peakMinutes > 360` the
output has no entry of type peak. -/
theorem peak_unless_cut (a : Analytics) :
    (a.peakMinutes.gt 360 = true →
      ((∃ r ∈ generateRecommendations a, r.type = "peak") ↔
        ¬ (a.riskScore.level = "high" ∧ a.weeklyStats.averageDailyMinutes.gt 240 = true ∧
            (a.weeklyStats.trend = "increasing" ∨ a.weeklyStats.trend = "decreasing") ∧
            a.weeklyStats.daysActive.strictEq 7 = true))) ∧
    (a.peakMinutes.gt 360 = true → a.riskScore.level = "high" →
      a.weeklyStats.averageDailyMinutes.gt 240 = true → a.weeklyStats.trend = "increasing" →
      a.weeklyStats.daysActive.strictEq 7 = true →
      generateRecommendations a = [usageRec, awarenessRec, breakRec, trendRec, varietyRec] ∧
      (generateRecommendations a).length = 5 ∧
      collected a = generateRecommendations a ++ [peakRec]) ∧
    (a.peakMinutes.gt 360 = true → a.riskScore.level = "high" →
      a.weeklyStats.averageDailyMinutes.gt 240 = true → a.weeklyStats.trend = "decreasing" →
      a.weeklyStats.daysActive.strictEq 7 = true →
      generateRecommendations a = [usageRec, awarenessRec, breakRec, positiveRec, varietyRec] ∧
      (generateRecommendations a).length = 5 ∧
      collected a = generateRecommendations a ++ [peakRec]) ∧
    (¬ (a.peakMinutes.gt 360 = true ∧ a.riskScore.level = "high" ∧
          a.weeklyStats.averageDailyMinutes.gt 240 = true ∧
          (a.weeklyStats.trend = "increasing" ∨ a.weeklyStats.trend = "decreasing") ∧
          a.weeklyStats.daysActive.strictEq 7 = true) →
      generateRecommendations a = collected a) ∧
    (a.peakMinutes.gt 360 = false → ∀ r ∈ generateRecommendations a, r.type ≠ "peak") ∧
    (∀ r ∈ generateRecommendations a, r.type = "peak" →
      r = peakRec ∧ r.priority = "high" ∧ r.actionable = true) := by
  obtain ⟨h, m, b, i, d, v, p, hh, hm, hb, hi, hd, hv, hp, x1, x2, hc, hg⟩ :=
    guards_normal_form a
  rw [hg, hc, hh, hb, hi, hd, hv, hp]
  clear hg hc hh hm hb hi hd hv hp
  refine ⟨?_, ?_, ?_, ?_, ?_, ?_⟩
  · revert x1 x2
    cases h <;> cases m <;> cases b <;> cases i <;> cases d <;> cases v <;> cases p <;> decide
  · intro hp hh hb hi hv
    subst hp hh hb hi hv
    cases m <;> cases d <;>
      first
        | exact ⟨rfl, rfl, rfl⟩
        | exact absurd x1 (by decide)
        | exact absurd x2 (by decide)
  · intro hp hh hb hd hv
    subst hp hh hb hd hv
    cases m <;> cases i <;>
      first
        | exact ⟨rfl, rfl, rfl⟩
        | exact absurd x1 (by decide)
        | exact absurd x2 (by decide)
  · revert x1 x2
    cases h <;> cases m <;> cases b <;> cases i <;> cases d <;> cases v <;> cases p <;> decide
  · revert x1 x2
    cases h <;> cases m <;> cases b <;> cases i <;> cases d <;> cases v <;> cases p <;> decide
  · revert x1 x2
    cases h <;> cases m <;> cases b <;> cases i <;> cases d <;> cases v <;> cases p <;> decide

/-- Concrete instance: a single day of 400 minutes (level low) keeps the peak entry and loses
nothing to the cut; the week in which every rule fires returns the five entries before the
peak entry and loses only that one. -/
theorem peak_unless_cut_witness :
    ((∃ r ∈ generateRecommendations singleSpike, r.type = "peak") ↔
        ¬ (singleSpike.riskScore.level = "high" ∧
            singleSpike.weeklyStats.averageDailyMinutes.gt 240 = true ∧
            (singleSpike.weeklyStats.trend = "increasing" ∨
              singleSpike.weeklyStats.trend = "decreasing") ∧
            singleSpike.weeklyStats.daysActive.strictEq 7 = true)) ∧
    (generateRecommendations heavyWeek =
        [usageRec, awarenessRec, breakRec, trendRec, varietyRec] ∧
      (generateRecommendations heavyWeek).length = 5 ∧
      collected heavyWeek = generateRecommendations heavyWeek ++ [peakRec]) ∧
    generateRecommendations singleSpike = collected singleSpike ∧
    (∀ r ∈ generateRecommendations lightWeek, r.type ≠ "peak") :=
  ⟨(peak_unless_cut singleSpike).1 (by decide),
   (peak_unless_cut heavyWeek).2.1 (by decide) rfl (by decide) rfl (by decide),
   (peak_unless_cut singleSpike).2.2.2.1 (by decide),
   (peak_unless_cut lightWeek).2.2.2.2.1 (by decide)⟩

/-- C10: every recommendation returned has a type among the nine types, a priority among
high, medium and low, a non-empty title and message, and a boolean `actionable`; and the
payload is fixed per type: two output entries, from any two inputs, with the same type have
the same priority, title, message and `actionable`. -/
theorem payload_closed_and_fixed (a b : Analytics) :
    (∀ r ∈ generateRecommendations a,
      r.type ∈ typeOrder ∧ r.priority ∈ priorities ∧ r.title ≠ "" ∧ r.message ≠ "" ∧
      (r.actionable = true ∨ r.actionable = false)) ∧
    (∀ r ∈ generateRecommendations a, ∀ s ∈ generateRecommendations b, r.type = s.type →
      r.priority = s.priority ∧ r.title = s.title ∧ r.message = s.message ∧
      r.actionable = s.actionable) := by
  constructor
  · intro r hr
    obtain ⟨h1, h2, h3, h4⟩ := ruleTable_well_formed r (output_mem_ruleTable a r hr)
    refine ⟨h1, h2, h3, h4, ?_⟩
    cases r.actionable
    · exact Or.inr rfl
    · exact Or.inl rfl
  · intro r hr s hs hts
    have hrs : r = s :=
      ruleTable_type_injective r (output_mem_ruleTable a r hr) s (output_mem_ruleTable b s hs)
        hts
    subst hrs
    exact ⟨rfl, rfl, rfl, rfl⟩

/-- Concrete instance: the break entry of the week of seven days of 300 minutes and the break
entry of the week in which every rule fires carry the same payload. -/
theorem payload_closed_and_fixed_witness :
    breakRec.priority = breakRec.priority ∧ breakRec.title = breakRec.title ∧
      breakRec.message = breakRec.message ∧ breakRec.actionable = breakRec.actionable :=
  (payload_closed_and_fixed sevenDays300 heavyWeek).2 breakRec (by decide) breakRec (by decide)
    rfl

/-- C11: `generateRecommendations` is deterministic: two inputs with the same risk level, the
same weekly stats and the same `peakMinutes` yield the same list, of the same length, entry
by entry and field by field.  The function has no argument besides `analytics` and reads only
these three parts of it. -/
theorem generateRecommendations_deterministic (a b : Analytics)
    (hlevel : a.riskScore.level = b.riskScore.level)
    (hweekly : a.weeklyStats = b.weeklyStats)
    (hpeak : a.peakMinutes = b.peakMinutes) :
    generateRecommendations a = generateRecommendations b ∧
    (generateRecommendations a).length = (generateRecommendations b).length ∧
    (∀ i : Nat, ∀ r s : Recommendation,
      (generateRecommendations a).get? i = some r →
      (generateRecommendations b).get? i = some s →
      r.type = s.type ∧ r.priority = s.priority ∧ r.title = s.title ∧
        r.message = s.message ∧ r.actionable = s.actionable) := by
  have heq : generateRecommendations a = generateRecommendations b := by
    unfold generateRecommendations collected
    simp only [hlevel, hweekly, hpeak]
  refine ⟨heq, by rw [heq], ?_⟩
  intro i r s hr hs
  rw [heq, hs] at hr
  cases hr
  exact ⟨rfl, rfl, rfl, rfl, rfl⟩

/-- Concrete instance: two weeks that differ only in their monthly stats get the same
list. -/
theorem generateRecommendations_deterministic_witness :
    generateRecommendations heavyWeek = generateRecommendations heavyWeekQuietMonth :=
  (generateRecommendations_deterministic heavyWeek heavyWeekQuietMonth rfl rfl rfl).1

/-- C12: `getMotivationalMessage` returns the message of the level for low, moderate and
high, and the low message for every value whose property key is not a member of
`Object.prototype` (undefined, null and the empty string among them); but for the level
`constructor` or `toString` it returns the inherited member of that name, which is not a
string. -/
theorem getMotivationalMessage_inherited_member :
    getMotivationalMessage (.str "low") = .str lowMessage ∧
    getMotivationalMessage (.str "moderate") = .str moderateMessage ∧
    getMotivationalMessage (.str "high") = .str highMessage ∧
    getMotivationalMessage .undefined = .str lowMessage ∧
    getMotivationalMessage (.str "") = .str lowMessage ∧
    (∀ level : LevelValue, level.propertyKey ≠ "moderate" → level.propertyKey ≠ "high" →
      level.propertyKey ∉ objectPrototypeMembers →
      getMotivationalMessage level = .str lowMessage) ∧
    getMotivationalMessage (.str "constructor") = .inherited "constructor" ∧
    getMotivationalMessage (.str "toString") = .inherited "toString" ∧
    (∀ s : String, getMotivationalMessage (.str "constructor") ≠ .str s) ∧
    (∀ s : String, getMotivationalMessage (.str "toString") ≠ .str s) := by
  have hc : getMotivationalMessage (.str "constructor") = .inherited "constructor" := by decide
  have ht : getMotivationalMessage (.str "toString") = .inherited "toString" := by decide
  refine ⟨by decide, by decide, by decide, by decide, by decide, ?_, hc, ht, ?_, ?_⟩
  · intro level hm hh hp
    unfold getMotivationalMessage messagesGet
    by_cases hl : level.propertyKey = "low"
    · simp [hl, PropertyValue.truthy, lowMessage]
    · simp [hl, hm, hh, hp, PropertyValue.truthy]
  · intro s
    rw [hc]
    exact fun h => PropertyValue.noConfusion h
  · intro s
    rw [ht]
    exact fun h => PropertyValue.noConfusion h

/-- Concrete instance: the level `unknown` is not a member of `Object.prototype` and gets the
low message. -/
theorem getMotivationalMessage_inherited_member_witness :
    getMotivationalMessage (.str "unknown") = .str lowMessage :=
  getMotivationalMessage_inherited_member.2.2.2.2.2.1 (.str "unknown") (by decide) (by decide)
    (by decide)

end Recommendations

namespace ErrorHandler

open JS

/-- The name of an error is one of the nine names the handler knows, or none of them. -/
theorem name_cases (n : JSValue) :
    n = .str "SequelizeValidationError" ∨ n = .str "SequelizeUniqueConstraintError" ∨
    n = .str "SequelizeDatabaseError" ∨ n = .str "SequelizeConnectionError" ∨
    n = .str "SequelizeForeignKeyConstraintError" ∨ n = .str "SequelizeCastError" ∨
    n = .str "CastError" ∨ n = .str "JsonWebTokenError" ∨ n = .str "TokenExpiredError" ∨
    (n ≠ .str "SequelizeValidationError" ∧ n ≠ .str "SequelizeUniqueConstraintError" ∧
      n ≠ .str "SequelizeDatabaseError" ∧ n ≠ .str "SequelizeConnectionError" ∧
      n ≠ .str "SequelizeForeignKeyConstraintError" ∧ n ≠ .str "SequelizeCastError" ∧
      n ≠ .str "CastError" ∧ n ≠ .str "JsonWebTokenError" ∧ n ≠ .str "TokenExpiredError") := by
  tauto

/-- The status `classify` leaves in `statusCode`, whether or not the message is computed. -/
theorem classify_status (toStr : JSValue → Option String) (err : Err) :
    (classify toStr err).1 = expectedStatus err.name err.statusCode := by
  rcases name_cases err.name with h | h | h | h | h | h | h | h | h | h
  · unfold classify expectedStatus
    rw [h]
    cases hv : validationErrors err with
    | none => simp [hv]
    | some errors => cases hj : join toStr errors <;> simp [hv, hj]
  · unfold classify expectedStatus
    rw [h]
    cases ht : toStr ((firstPath err).or (.str "field")) <;> simp [ht]
  · unfold classify expectedStatus
    rw [h]
    simp
  · unfold classify expectedStatus
    rw [h]
    simp
  · unfold classify expectedStatus
    rw [h]
    simp
  · unfold classify expectedStatus
    rw [h]
    simp
  · unfold classify expectedStatus
    rw [h]
    simp
  · unfold classify expectedStatus
    rw [h]
    simp
  · unfold classify expectedStatus
    rw [h]
    simp
  · obtain ⟨h1, h2, h3, h4, h5, h6, h7, h8, h9⟩ := h
    unfold classify expectedStatus
    simp [h1, h2, h3, h4, h5, h6, h7, h8, h9, JSValue.or]

/-- The message is computed exactly when lines 19, 20 and 27 do not throw. -/
theorem classify_message (toStr : JSValue → Option String) (err : Err) :
    (classify toStr err).2.isSome = err.wellFormed toStr := by
  rcases name_cases err.name with h | h | h | h | h | h | h | h | h | h
  · unfold classify Err.wellFormed
    rw [h]
    cases hv : validationErrors err with
    | none => simp [hv]
    | some errors => cases hj : join toStr errors <;> simp [hv, hj]
  · unfold classify Err.wellFormed
    rw [h]
    cases ht : toStr ((firstPath err).or (.str "field")) <;> simp [ht]
  · unfold classify Err.wellFormed
    rw [h]
    simp
  · unfold classify Err.wellFormed
    rw [h]
    simp
  · unfold classify Err.wellFormed
    rw [h]
    simp
  · unfold classify Err.wellFormed
    rw [h]
    simp
  · unfold classify Err.wellFormed
    rw [h]
    simp
  · unfold classify Err.wellFormed
    rw [h]
    simp
  · unfold classify Err.wellFormed
    rw [h]
    simp
  · obtain ⟨h1, h2, h3, h4, h5, h6, h7, h8, h9⟩ := h
    unfold classify Err.wellFormed
    simp [h1, h2, h3, h4, h5, h6, h7, h8, h9]

/-- C13 fails on the code.  On a response whose calls succeed a plain `Error` gets the JSON
body with `success` false and its message; but with unsent headers and a `json` call that
throws, the handler sends the message as plain text and no JSON body; when the fallback `end`
throws as well, the exception leaves the handler; a validation error whose `errors` field is
not an array, and a unique-constraint error whose `path` is a symbol, make the handler throw
before any response; and a numeric `err.message` is sent as a number. -/
theorem errorHandler_not_always_json :
    errorHandler false sampleToStr plainError freshResponse =
      .jsonSent (JSValue.ofNat 500)
        { success := false, message := .str "boom", stack := none, error := none } ∧
    errorHandler false sampleToStr plainError jsonThrowsResponse =
      .textSent (JSValue.ofNat 500) (.str "boom") ∧
    errorHandler false sampleToStr plainError brokenResponse = .threw ∧
    errorHandler false sampleToStr malformedValidationError freshResponse = .threw ∧
    errorHandler false sampleToStr symbolPathError freshResponse = .threw ∧
    errorHandler false sampleToStr numericMessageError freshResponse =
      .jsonSent (JSValue.ofNat 500)
        { success := false, message := .num (.fin 42), stack := none, error := none } := by
  refine ⟨by decide, by decide, by decide, by decide, by decide, by decide⟩

/-- C14: the status chosen by the handler is the function `expectedStatus` of `err.name` and
`err.statusCode`.  The variable `statusCode` holds that value when control leaves lines 13 to
63, whether or not the message is computed; every JSON or text response the handler sends
carries it; two errors with the same name and the same `statusCode` get the same status; a
named error gets its fixed status whatever `statusCode` it carries, and every other error
gets `err.statusCode` when that is truthy and 500 otherwise.  The message is computed as well
whenever lines 19, 20 and 27 do not throw, which is always so for an error that is neither a
validation error nor a unique-constraint error. -/
theorem status_from_name_and_statusCode (toStr : JSValue → Option String) (err other : Err) :
    (classify toStr err).1 = expectedStatus err.name err.statusCode ∧
    (∀ s m, classify toStr err = (s, some m) → s = expectedStatus err.name err.statusCode) ∧
    (err.wellFormed toStr = true →
      ∃ m, classify toStr err = (expectedStatus err.name err.statusCode, some m)) ∧
    (∀ development res s b, errorHandler development toStr err res = .jsonSent s b →
      s = expectedStatus err.name err.statusCode) ∧
    (∀ development res s t, errorHandler development toStr err res = .textSent s t →
      s = expectedStatus err.name err.statusCode) ∧
    (err.name = other.name → err.statusCode = other.statusCode →
      (classify toStr err).1 = (classify toStr other).1) ∧
    (err.name = .str "SequelizeValidationError" →
      (classify toStr err).1 = JSValue.ofNat 400) ∧
    (err.name = .str "SequelizeUniqueConstraintError" →
      (classify toStr err).1 = JSValue.ofNat 409) ∧
    (err.name = .str "SequelizeConnectionError" →
      ∃ m, classify toStr err = (JSValue.ofNat 503, some m)) ∧
    (err.name = .str "JsonWebTokenError" ∨ err.name = .str "TokenExpiredError" →
      ∃ m, classify toStr err = (JSValue.ofNat 401, some m)) ∧
    (err.name = .str "SequelizeDatabaseError" ∨
        err.name = .str "SequelizeForeignKeyConstraintError" ∨
        err.name = .str "SequelizeCastError" ∨ err.name = .str "CastError" →
      ∃ m, classify toStr err = (JSValue.ofNat 400, some m)) ∧
    ((∀ n ∈ handledNames, err.name ≠ .str n) →
      ∃ m, classify toStr err =
        (if err.statusCode.truthy then err.statusCode else JSValue.ofNat 500, some m)) := by
  have total : ∀ e : Err, e.wellFormed toStr = true →
      ∃ m, classify toStr e = (expectedStatus e.name e.statusCode, some m) := by
    intro e hwf
    have hs := classify_status toStr e
    have hm := classify_message toStr e
    rw [hwf] at hm
    cases hc : classify toStr e with
    | mk s m =>
      rw [hc] at hs hm
      simp only at hs
      cases m with
      | none => simp at hm
      | some m => exact ⟨m, by rw [hs]⟩
  have wfOther : ∀ e : Err, e.name ≠ .str "SequelizeValidationError" →
      e.name ≠ .str "SequelizeUniqueConstraintError" → e.wellFormed toStr = true := by
    intro e hv hu
    simp [Err.wellFormed, hv, hu]
  have sent : ∀ development res, ∀ s : JSValue,
      (∃ b, errorHandler development toStr err res = .jsonSent s b) ∨
        (∃ t, errorHandler development toStr err res = .textSent s t) →
      s = expectedStatus err.name err.statusCode := by
    intro development res s h
    have hs := classify_status toStr err
    unfold errorHandler at h
    cases hc : classify toStr err with
    | mk s0 m =>
      rw [hc] at hs h
      simp only at hs
      cases m with
      | none => rcases h with ⟨b, h⟩ | ⟨t, h⟩ <;> cases h
      | some m0 =>
        simp only at h
        cases hsent : res.headersSent with
        | true => rcases h with ⟨b, h⟩ | ⟨t, h⟩ <;> simp [hsent] at h
        | false =>
          cases hj : res.json s0 (responseBody development err m0) with
          | ok =>
            rcases h with ⟨b, h⟩ | ⟨t, h⟩
            · simp [hsent, hj] at h
              rw [← h.1, hs]
            · simp [hsent, hj] at h
          | threw after =>
            cases after with
            | true => rcases h with ⟨b, h⟩ | ⟨t, h⟩ <;> simp [hsent, hj] at h
            | false =>
              cases he : res.endThrows s0 m0 with
              | true => rcases h with ⟨b, h⟩ | ⟨t, h⟩ <;> simp [hsent, hj, he] at h
              | false =>
                rcases h with ⟨b, h⟩ | ⟨t, h⟩
                · simp [hsent, hj, he] at h
                · simp [hsent, hj, he] at h
                  rw [← h.1, hs]
  refine ⟨classify_status toStr err, ?_, total err, ?_, ?_, ?_, ?_, ?_, ?_, ?_, ?_, ?_⟩
  · intro s m h
    have hs := classify_status toStr err
    rw [h] at hs
    exact hs
  · intro development res s b h
    exact sent development res s (Or.inl ⟨b, h⟩)
  · intro development res s t h
    exact sent development res s (Or.inr ⟨t, h⟩)
  · intro hn hsc
    rw [classify_status, classify_status, hn, hsc]
  · intro h
    rw [classify_status, h]
    rfl
  · intro h
    rw [classify_status, h]
    rfl
  · intro h
    obtain ⟨m, hm⟩ := total err (wfOther err (by rw [h]; decide) (by rw [h]; decide))
    exact ⟨m, by rw [hm, h]; rfl⟩
  · intro h
    rcases h with h | h
    · obtain ⟨m, hm⟩ := total err (wfOther err (by rw [h]; decide) (by rw [h]; decide))
      exact ⟨m, by rw [hm, h]; rfl⟩
    · obtain ⟨m, hm⟩ := total err (wfOther err (by rw [h]; decide) (by rw [h]; decide))
      exact ⟨m, by rw [hm, h]; rfl⟩
  · intro h
    rcases h with h | h | h | h
    · obtain ⟨m, hm⟩ := total err (wfOther err (by rw [h]; decide) (by rw [h]; decide))
      exact ⟨m, by rw [hm, h]; rfl⟩
    · obtain ⟨m, hm⟩ := total err (wfOther err (by rw [h]; decide) (by rw [h]; decide))
      exact ⟨m, by rw [hm, h]; rfl⟩
    · obtain ⟨m, hm⟩ := total err (wfOther err (by rw [h]; decide) (by rw [h]; decide))
      exact ⟨m, by rw [hm, h]; rfl⟩
    · obtain ⟨m, hm⟩ := total err (wfOther err (by rw [h]; decide) (by rw [h]; decide))
      exact ⟨m, by rw [hm, h]; rfl⟩
  · intro h
    have h1 := h "SequelizeValidationError" (by simp [handledNames])
    have h2 := h "SequelizeUniqueConstraintError" (by simp [handledNames])
    have h3 := h "SequelizeDatabaseError" (by simp [handledNames])
    have h4 := h "SequelizeConnectionError" (by simp [handledNames])
    have h5 := h "SequelizeForeignKeyConstraintError" (by simp [handledNames])
    have h6 := h "SequelizeCastError" (by simp [handledNames])
    have h7 := h "CastError" (by simp [handledNames])
    have h8 := h "JsonWebTokenError" (by simp [handledNames])
    have h9 := h "TokenExpiredError" (by simp [handledNames])
    obtain ⟨m, hm⟩ := total err (wfOther err h1 h2)
    refine ⟨m, ?_⟩
    rw [hm]
    simp [expectedStatus, h1, h2, h3, h4, h5, h6, h7, h8, h9]

/-- Concrete instance: a validation error carrying `statusCode` 422 gets 400 and its
message, and an application error carrying 404 gets 404. -/
theorem status_from_name_and_statusCode_witness :
    (∃ m, classify sampleToStr validationError =
      (expectedStatus validationError.name validationError.statusCode, some m)) ∧
    (classify sampleToStr validationError).1 = JSValue.ofNat 400 ∧
    (∃ m, classify sampleToStr notFoundError =
      (if notFoundError.statusCode.truthy then notFoundError.statusCode
        else JSValue.ofNat 500, some m)) :=
  ⟨(status_from_name_and_statusCode sampleToStr validationError validationError).2.2.1
      (by decide),
   (status_from_name_and_statusCode sampleToStr validationError validationError).2.2.2.2.2.2.1
      rfl,
   (status_from_name_and_statusCode sampleToStr notFoundError notFoundError).2.2.2.2.2.2.2.2.2.2.2
      (by decide)⟩

end ErrorHandler

namespace Auth

open JS

/-- C15: `authenticate` calls `next()` if and only if the `Authorization` header is a string
starting with `Bearer `, the rest of the header verifies as a token, and the lookup of the
decoded `userId` finds a user; then `req.user` is that user, `next()` is called once and no
response is sent.  In every other case `next()` is not called, `req.user` is not set, and a
response with `success` false and status 401 or 500 is sent; a token reported as expired
gets 401 with the code `TOKEN_EXPIRED`. -/
theorem authenticate_next_iff (env : AccessEnv) (authorization : HeaderValue) :
    ((authenticate env authorization).nextCalls = 1 ↔
      ∃ s userId user, authorization = .str s ∧ startsWith s "Bearer " = true ∧
        env.verify (substring s 7) = .decoded userId ∧ env.findThrows = none ∧
        env.db.findByPk userId = some user) ∧
    (∀ s userId user, authorization = .str s → startsWith s "Bearer " = true →
      env.verify (substring s 7) = .decoded userId → env.findThrows = none →
      env.db.findByPk userId = some user →
      authenticate env authorization = { nextCalls := 1, user := some user, response := none }) ∧
    ((authenticate env authorization).nextCalls ≠ 1 →
      (authenticate env authorization).nextCalls = 0 ∧
      (authenticate env authorization).user = none ∧
      ∃ r, (authenticate env authorization).response = some r ∧ r.success = false ∧
        (r.status = 401 ∨ r.status = 500)) ∧
    (∀ s, authorization = .str s → startsWith s "Bearer " = true →
      env.verify (substring s 7) = .threw "TokenExpiredError" →
      (authenticate env authorization).nextCalls = 0 ∧
      ∃ r, (authenticate env authorization).response = some r ∧ r.status = 401 ∧
        r.success = false ∧ r.code = some "TOKEN_EXPIRED") := by
  have hstart : ∀ s, startsWith s "Bearer " = true → s ≠ "" := by
    rintro s h rfl
    exact absurd h (by decide)
  cases authorization with
  | undefined => simp [authenticate, respond, errorReply]
  | other t => cases t <;> simp [authenticate, respond, errorReply]
  | str s =>
    by_cases hp : startsWith s "Bearer " = true
    · have hs := hstart s hp
      cases hv : env.verify (substring s 7) with
      | threw name =>
        by_cases hn : name = "TokenExpiredError" <;>
          simp [authenticate, respond, errorReply, authCatch, hp, hs, hv, hn] <;>
          (intro s2 userId user hs2; subst hs2; intro _ hv2; rw [hv] at hv2; cases hv2)
      | decoded userId =>
        cases hf : env.findThrows with
        | some name =>
          by_cases hn : name = "TokenExpiredError" <;>
            simp [authenticate, respond, errorReply, authCatch, hp, hs, hv, hf, hn]
        | none =>
          cases hu : env.db.findByPk userId with
          | none =>
            simp [authenticate, respond, errorReply, hp, hs, hv, hf, hu]
            intro s2 userId2 user hs2
            subst hs2
            intro _ hv2
            rw [hv] at hv2
            cases hv2
            rw [hu]
            exact fun h => Option.noConfusion h
          | some found =>
            simp [authenticate, respond, errorReply, hp, hs, hv, hf, hu]
            intro s2 userId2 user hs2
            subst hs2
            intro _ hv2 hu2
            rw [hv] at hv2
            cases hv2
            rw [hu] at hu2
            exact Option.some.inj hu2
    · simp [authenticate, respond, errorReply, hp]
      intro s2 userId user hs2
      subst hs2
      intro hp2
      exact absurd hp2 hp

/-- Concrete instance: with the header `Bearer good` the user is attached and `next()` runs;
with `Bearer late` the answer is 401 with the code `TOKEN_EXPIRED`. -/
theorem authenticate_next_iff_witness :
    authenticate sampleAccessEnv (.str "Bearer good") =
      { nextCalls := 1, user := some ada, response := none } ∧
    ((authenticate sampleAccessEnv (.str "Bearer late")).nextCalls = 0 ∧
      ∃ r, (authenticate sampleAccessEnv (.str "Bearer late")).response = some r ∧
        r.status = 401 ∧ r.success = false ∧ r.code = some "TOKEN_EXPIRED") :=
  ⟨(authenticate_next_iff sampleAccessEnv (.str "Bearer good")).2.1 "Bearer good" (some 1) ada
      rfl (by decide) (by decide) rfl (by decide),
   (authenticate_next_iff sampleAccessEnv (.str "Bearer late")).2.2.2 "Bearer late" rfl
      (by decide) (by decide)⟩

/-- A row found by `findByPk` carries the id that was asked for. -/
theorem findByPk_id (db : Store) (i : Nat) (user : User)
    (h : db.findByPk (some i) = some user) : user.id = i := by
  have := List.find?_some h
  simpa using this

/-- The list form of `findByPk_save`. -/
theorem find_map_save (db : List User) (i : Nat) (saved : User) (hid : saved.id = i) :
    (db.map (fun row => if row.id == saved.id then saved else row)).find?
        (fun u => u.id == i) =
      (db.find? (fun u => u.id == i)).map (fun _ => saved) := by
  induction db with
  | nil => rfl
  | cons row rest ih =>
    rw [List.map_cons]
    by_cases hrow : row.id = i
    · have h1 : (row.id == saved.id) = true := by simp [hrow, hid]
      rw [if_pos h1, List.find?_cons_of_pos _ (by simp [hid]),
        List.find?_cons_of_pos _ (by simp [hrow])]
      rfl
    · have h1 : ¬ (row.id == saved.id) = true := by simp [hid, hrow]
      rw [if_neg h1, List.find?_cons_of_neg _ (by simp [hrow]),
        List.find?_cons_of_neg _ (by simp [hrow])]
      exact ih

/-- After `save` of a row with the id `i`, a lookup of `i` finds that row if it finds any. -/
theorem findByPk_save (db : Store) (i : Nat) (saved : User) (hid : saved.id = i) :
    (db.save saved).findByPk (some i) = (db.findByPk (some i)).map (fun _ => saved) :=
  find_map_save db i saved hid

/-- The `catch` block of `refreshToken` answers 401 for the two token errors and passes
every other error on. -/
theorem refreshCatch_cases (name : String) :
    refreshCatch name = .reply (errorReply 401 "Invalid or expired refresh token") ∨
    (name ≠ "JsonWebTokenError" ∧ name ≠ "TokenExpiredError" ∧
      refreshCatch name = .passedToNext name) := by
  unfold refreshCatch
  by_cases h : name = "JsonWebTokenError" ∨ name = "TokenExpiredError"
  · left
    rw [if_pos h]
  · right
    rw [if_neg h]
    exact ⟨fun h1 => h (Or.inl h1), fun h2 => h (Or.inr h2), rfl⟩

/-- The handler `refreshToken`, case by case: it succeeds, storing and returning the new
tokens; or it answers 400 or 401 and leaves the table as it was; or it passes an error that
is not a token error on and leaves the table as it was. -/
theorem refreshToken_cases (env : RefreshEnv) (db : Store) (token : JSValue) :
    (∃ t userId user, token = .str t ∧ t ≠ "" ∧ env.refreshSecretSet = true ∧
        env.accessSecretSet = true ∧ env.verify t = .decoded userId ∧
        env.findThrows = none ∧ db.findByPk userId = some user ∧
        user.refreshToken = some t ∧ env.signThrows = none ∧ env.saveThrows = none ∧
        refreshToken env db token =
          (db.save { user with refreshToken := some (env.signRefresh user.id) },
            .reply { status := 200, success := true, message := none, code := none,
                     tokens := some (env.signAccess user.id, env.signRefresh user.id) })) ∨
    (∃ status message, (status = 400 ∨ status = 401) ∧
        (status = 400 ↔ (token.truthy = false ∨ ∀ t, token ≠ .str t)) ∧
        refreshToken env db token = (db, .reply (errorReply status message))) ∨
    (∃ name, name ≠ "JsonWebTokenError" ∧ name ≠ "TokenExpiredError" ∧
        (∃ t, token = .str t ∧ t ≠ "") ∧
        refreshToken env db token = (db, .passedToNext name)) := by
  cases token with
  | undefined =>
    exact Or.inr (Or.inl ⟨400, _, Or.inl rfl, by simp [JSValue.truthy], rfl⟩)
  | null =>
    exact Or.inr (Or.inl ⟨400, _, Or.inl rfl, by simp [JSValue.truthy], rfl⟩)
  | bool b =>
    cases b
    · exact Or.inr (Or.inl ⟨400, _, Or.inl rfl, by simp [JSValue.truthy], rfl⟩)
    · exact Or.inr (Or.inl ⟨400, _, Or.inl rfl, by simp [JSValue.truthy], rfl⟩)
  | num n =>
    cases hn : (JSValue.num n).truthy
    · exact Or.inr (Or.inl ⟨400, "Refresh token is required", Or.inl rfl, by simp,
        by simp [refreshToken, hn]⟩)
    · exact Or.inr (Or.inl ⟨400, "Refresh token must be a string", Or.inl rfl, by simp,
        by simp [refreshToken, hn]⟩)
  | object l =>
    exact Or.inr (Or.inl ⟨400, _, Or.inl rfl, by simp [JSValue.truthy], rfl⟩)
  | str t =>
    by_cases ht : t = ""
    · exact Or.inr (Or.inl ⟨400, "Refresh token is required", Or.inl rfl,
        by simp [JSValue.truthy, ht], by simp [refreshToken, JSValue.truthy, ht]⟩)
    · have htruthy : (JSValue.str t).truthy = true := by simp [JSValue.truthy, ht]
      have caught : ∀ name, refreshToken env db (.str t) = (db, refreshCatch name) →
          (∃ status message, (status = 400 ∨ status = 401) ∧
              (status = 400 ↔ ((JSValue.str t).truthy = false ∨ ∀ t2, JSValue.str t ≠ .str t2)) ∧
              refreshToken env db (.str t) = (db, .reply (errorReply status message))) ∨
          (∃ name, name ≠ "JsonWebTokenError" ∧ name ≠ "TokenExpiredError" ∧
              (∃ t2, JSValue.str t = .str t2 ∧ t2 ≠ "") ∧
              refreshToken env db (.str t) = (db, .passedToNext name)) := by
        intro name hname
        rcases refreshCatch_cases name with hc | ⟨h1, h2, hc⟩
        · exact Or.inl ⟨401, _, Or.inr rfl, by simp [htruthy], by rw [hname, hc]⟩
        · exact Or.inr ⟨name, h1, h2, ⟨t, rfl, ht⟩, by rw [hname, hc]⟩
      have denied : ∀ message,
          refreshToken env db (.str t) = (db, .reply (errorReply 401 message)) →
          (∃ status message, (status = 400 ∨ status = 401) ∧
              (status = 400 ↔ ((JSValue.str t).truthy = false ∨ ∀ t2, JSValue.str t ≠ .str t2)) ∧
              refreshToken env db (.str t) = (db, .reply (errorReply status message))) := by
        intro message hm
        exact ⟨401, message, Or.inr rfl, by simp [htruthy], hm⟩
      cases hsec : env.refreshSecretSet with
      | false =>
        exact Or.inr (caught "Error" (by simp [refreshToken, htruthy, hsec]))
      | true =>
        cases hv : env.verify t with
        | threw name =>
          exact Or.inr (caught name (by simp [refreshToken, htruthy, hsec, hv]))
        | decoded userId =>
          cases hf : env.findThrows with
          | some name =>
            exact Or.inr (caught name (by simp [refreshToken, htruthy, hsec, hv, hf]))
          | none =>
            cases hu : db.findByPk userId with
            | none =>
              exact Or.inr (Or.inl (denied "Invalid refresh token"
                (by simp [refreshToken, htruthy, hsec, hv, hf, hu])))
            | some user =>
              by_cases hstored : user.refreshToken = some t
              · cases hacc : env.accessSecretSet with
                | false =>
                  exact Or.inr (caught "Error"
                    (by simp [refreshToken, generateTokens, htruthy, hsec, hv, hf, hu, hstored,
                      hacc]))
                | true =>
                  cases hsign : env.signThrows with
                  | some name =>
                    exact Or.inr (caught name
                      (by simp [refreshToken, generateTokens, htruthy, hsec, hv, hf, hu,
                        hstored, hacc, hsign]))
                  | none =>
                    cases hsave : env.saveThrows with
                    | some name =>
                      exact Or.inr (caught name
                        (by simp [refreshToken, generateTokens, htruthy, hsec, hv, hf, hu,
                          hstored, hacc, hsign, hsave]))
                    | none =>
                      exact Or.inl ⟨t, userId, user, rfl, ht, rfl, rfl, hv, rfl, hu, hstored,
                        rfl, rfl,
                        by simp [refreshToken, generateTokens, htruthy, hsec, hv, hf, hu,
                          hstored, hacc, hsign, hsave]⟩
              · exact Or.inr (Or.inl (denied "Invalid refresh token"
                  (by simp [refreshToken, htruthy, hsec, hv, hf, hu, hstored])))

/-- C16 fails on the code.  `logout` always answers `Logout successful`; but when the lookup
or the update fails, the table is left as it was, so the refresh token stays stored and a
later refresh request with it is accepted and gets new tokens.  Only when neither fails is
the stored refresh token of the user null afterwards; a later refresh request with a token of
that user then gets no tokens and leaves the table as it is: it is answered with 401, or its
error is passed on to the error-handling middleware. -/
theorem logout_success_without_invalidation (findThrows saveThrows : Option String)
    (db : Store) (userId : Nat) :
    (logout findThrows saveThrows db userId).2 = logoutReply ∧
    ((findThrows ≠ none ∨ saveThrows ≠ none) →
      (logout findThrows saveThrows db userId).1 = db ∧
      (∀ (env : RefreshEnv) (user : User) (t : String),
        db.findByPk (some userId) = some user → user.refreshToken = some t → t ≠ "" →
        env.verify t = .decoded (some userId) → env.refreshSecretSet = true →
        env.accessSecretSet = true → env.findThrows = none → env.signThrows = none →
        env.saveThrows = none →
        (refreshToken env (logout findThrows saveThrows db userId).1 (.str t)).2 =
          .reply { status := 200, success := true, message := none, code := none,
                   tokens := some (env.signAccess user.id, env.signRefresh user.id) })) ∧
    (findThrows = none → saveThrows = none →
      (∀ u, (logout findThrows saveThrows db userId).1.findByPk (some userId) = some u →
        u.refreshToken = none) ∧
      (∀ (env : RefreshEnv) (t : String), t ≠ "" → env.verify t = .decoded (some userId) →
        (refreshToken env (logout findThrows saveThrows db userId).1 (.str t)).1 =
          (logout findThrows saveThrows db userId).1 ∧
        ((∃ message,
            (refreshToken env (logout findThrows saveThrows db userId).1 (.str t)).2 =
              .reply (errorReply 401 message)) ∨
          (∃ name,
            (refreshToken env (logout findThrows saveThrows db userId).1 (.str t)).2 =
              .passedToNext name)))) := by
  refine ⟨?_, ?_, ?_⟩
  · unfold logout
    cases findThrows with
    | some name => rfl
    | none =>
      cases db.findByPk (some userId) with
      | none => rfl
      | some user => cases saveThrows <;> rfl
  · intro hfail
    have hdb : (logout findThrows saveThrows db userId).1 = db := by
      unfold logout
      cases findThrows with
      | some name => rfl
      | none =>
        cases db.findByPk (some userId) with
        | none => rfl
        | some user =>
          cases saveThrows with
          | some name => rfl
          | none => rcases hfail with h | h <;> exact absurd rfl h
    refine ⟨hdb, ?_⟩
    intro env user t hu hstored hne hv hsec hacc hf hsign hsave
    rw [hdb]
    have htruthy : (JSValue.str t).truthy = true := by simp [JSValue.truthy, hne]
    simp [refreshToken, generateTokens, htruthy, hsec, hacc, hv, hf, hu, hstored, hsign, hsave]
  · intro hf hs
    subst hf hs
    have hnull : ∀ u, (logout none none db userId).1.findByPk (some userId) = some u →
        u.refreshToken = none := by
      intro u hu
      unfold logout at hu
      cases hfound : db.findByPk (some userId) with
      | none =>
        rw [hfound] at hu
        simp only at hu
        rw [hfound] at hu
        cases hu
      | some user =>
        rw [hfound] at hu
        simp only at hu
        rw [findByPk_save db userId { user with refreshToken := none }
          (findByPk_id db userId user hfound), hfound] at hu
        cases hu
        rfl
    refine ⟨hnull, ?_⟩
    intro env t hne hverify
    have htruthy : (JSValue.str t).truthy = true := by simp [JSValue.truthy, hne]
    rcases refreshToken_cases env (logout none none db userId).1 (.str t) with
      ⟨t2, userId2, user, ht2, -, -, -, hv2, -, hu2, hstored, -, -, -⟩ |
      ⟨status, message, hstatus, hiff, heq⟩ | ⟨name, -, -, -, heq⟩
    · exfalso
      cases ht2
      rw [hverify] at hv2
      cases hv2
      have := hnull user hu2
      rw [this] at hstored
      cases hstored
    · rw [heq]
      refine ⟨rfl, Or.inl ⟨message, ?_⟩⟩
      rcases hstatus with h400 | h401
      · exfalso
        rcases hiff.mp h400 with hfalsy | hnostr
        · rw [htruthy] at hfalsy
          cases hfalsy
        · exact hnostr t rfl
      · rw [h401]
    · rw [heq]
      exact ⟨rfl, Or.inr ⟨name, rfl⟩⟩

/-- Concrete instance: user 1 has the refresh token `old-token` stored and `user.save()`
fails.  `logout` answers `Logout successful`, the row keeps the token, and a later refresh
request with `old-token` gets new tokens. -/
theorem logout_success_without_invalidation_witness :
    logout none (some "SequelizeConnectionError") oneUser 1 = (oneUser, logoutReply) ∧
    (logout none (some "SequelizeConnectionError") oneUser 1).1.findByPk (some 1) = some ada ∧
    ada.refreshToken = some "old-token" ∧
    (refreshToken sampleRefreshEnv (logout none (some "SequelizeConnectionError") oneUser 1).1
        (.str "old-token")).2 =
      .reply { status := 200, success := true, message := none, code := none,
               tokens := some (sampleRefreshEnv.signAccess ada.id,
                 sampleRefreshEnv.signRefresh ada.id) } :=
  ⟨by decide, by decide, rfl,
   ((logout_success_without_invalidation none (some "SequelizeConnectionError") oneUser 1).2.1
      (Or.inr (by decide))).2 sampleRefreshEnv ada "old-token" (by decide) rfl (by decide)
      (by decide) rfl rfl rfl rfl rfl⟩

/-- Counterexample for `refreshToken`: with a well-formed token but no `JWT_REFRESH_SECRET`, or with a
database that refuses the lookup, the handler answers neither 400 nor 401: it passes the
error on to the error-handling middleware. -/
theorem refreshToken_passes_error_on :
    refreshToken noSecretEnv oneUser (.str "old-token") = (oneUser, .passedToNext "Error") ∧
    refreshToken databaseDownEnv oneUser (.str "old-token") =
      (oneUser, .passedToNext "SequelizeConnectionError") ∧
    ¬ (∃ r, (refreshToken noSecretEnv oneUser (.str "old-token")).2 = .reply r ∧
        (r.status = 400 ∨ r.status = 401)) := by
  refine ⟨by decide, by decide, ?_⟩
  rintro ⟨r, hr, -⟩
  have h : (refreshToken noSecretEnv oneUser (.str "old-token")).2 = .passedToNext "Error" := by
    decide
  rw [h] at hr
  cases hr

/-- C20, amended: an answer with tokens is given only when the presented token is a
non-empty string that verifies, the decoded user exists and the token equals the refresh
token stored on that user; the answer is then a success with the newly signed tokens, and the
stored refresh token is the new one.  Every other answer carries no tokens, has `success`
false and status 400 (exactly when the token is missing or not a string) or 401, and leaves
the table as it was.  An error that is not a token error (secret not configured, failure of
`jwt`, database failure) is passed on to the error-handling middleware, with the table as it
was.  When all conditions hold and nothing fails, the success answer is given. -/
theorem refreshToken_issues_only_for_stored_token (env : RefreshEnv) (db : Store)
    (token : JSValue) :
    (∀ r, (refreshToken env db token).2 = .reply r → r.tokens ≠ none →
      ∃ t userId user, token = .str t ∧ t ≠ "" ∧ env.verify t = .decoded userId ∧
        db.findByPk userId = some user ∧ user.refreshToken = some t ∧
        r.success = true ∧
        r.tokens = some (env.signAccess user.id, env.signRefresh user.id) ∧
        (refreshToken env db token).1 =
          db.save { user with refreshToken := some (env.signRefresh user.id) } ∧
        (refreshToken env db token).1.findByPk (some user.id) =
          some { user with refreshToken := some (env.signRefresh user.id) }) ∧
    (∀ r, (refreshToken env db token).2 = .reply r → r.tokens = none →
      (refreshToken env db token).1 = db ∧ r.success = false ∧
      (r.status = 400 ∨ r.status = 401) ∧
      (r.status = 400 ↔ (token.truthy = false ∨ ∀ t, token ≠ .str t))) ∧
    (∀ name, (refreshToken env db token).2 = .passedToNext name →
      (refreshToken env db token).1 = db ∧ name ≠ "JsonWebTokenError" ∧
      name ≠ "TokenExpiredError" ∧ ∃ t, token = .str t ∧ t ≠ "") ∧
    (∀ t userId user, token = .str t → t ≠ "" → env.refreshSecretSet = true →
      env.accessSecretSet = true → env.verify t = .decoded userId → env.findThrows = none →
      db.findByPk userId = some user → user.refreshToken = some t →
      env.signThrows = none → env.saveThrows = none →
      (refreshToken env db token).2 =
        .reply { status := 200, success := true, message := none, code := none,
                 tokens := some (env.signAccess user.id, env.signRefresh user.id) }) := by
  refine ⟨?_, ?_, ?_, ?_⟩
  · intro r hr htok
    rcases refreshToken_cases env db token with
      ⟨t, userId, user, ht, hne, -, -, hv, -, hu, hstored, -, -, heq⟩ |
      ⟨status, message, -, -, heq⟩ | ⟨name, -, -, -, heq⟩
    · rw [heq] at hr ⊢
      cases hr
      refine ⟨t, userId, user, ht, hne, hv, hu, hstored, rfl, rfl, rfl, ?_⟩
      cases userId with
      | none => cases hu
      | some i =>
        have hid := findByPk_id db i user hu
        rw [findByPk_save db user.id
          { user with refreshToken := some (env.signRefresh user.id) } rfl, hid, hu]
        rfl
    · rw [heq] at hr
      cases hr
      exact absurd rfl htok
    · rw [heq] at hr
      cases hr
  · intro r hr htok
    rcases refreshToken_cases env db token with
      ⟨t, userId, user, -, -, -, -, -, -, -, -, -, -, heq⟩ |
      ⟨status, message, hstatus, hiff, heq⟩ | ⟨name, -, -, -, heq⟩
    · rw [heq] at hr
      cases hr
      cases htok
    · rw [heq] at hr ⊢
      cases hr
      exact ⟨rfl, rfl, hstatus, hiff⟩
    · rw [heq] at hr
      cases hr
  · intro name hname
    rcases refreshToken_cases env db token with
      ⟨t, userId, user, -, -, -, -, -, -, -, -, -, -, heq⟩ |
      ⟨status, message, -, -, heq⟩ | ⟨name2, h1, h2, ht, heq⟩
    · rw [heq] at hname
      cases hname
    · rw [heq] at hname
      cases hname
    · rw [heq] at hname ⊢
      cases hname
      exact ⟨rfl, h1, h2, ht⟩
  · intro t userId user ht hne hsec hacc hv hf hu hstored hsign hsave
    subst ht
    have htruthy : (JSValue.str t).truthy = true := by simp [JSValue.truthy, hne]
    simp [refreshToken, generateTokens, htruthy, hsec, hacc, hv, hf, hu, hstored, hsign, hsave]

/-- Concrete instance: the stored token `old-token` of user 1 is exchanged for the new pair,
and a token that does not verify gets 401 and no tokens. -/
theorem refreshToken_issues_only_for_stored_token_witness :
    (refreshToken sampleRefreshEnv oneUser (.str "old-token")).2 =
      .reply { status := 200, success := true, message := none, code := none,
               tokens := some (sampleRefreshEnv.signAccess 1, sampleRefreshEnv.signRefresh 1) } ∧
    ((refreshToken sampleRefreshEnv oneUser (.str "forged")).1 = oneUser ∧
      (errorReply 401 "Invalid or expired refresh token").success = false ∧
      ((errorReply 401 "Invalid or expired refresh token").status = 400 ∨
        (errorReply 401 "Invalid or expired refresh token").status = 401) ∧
      ((errorReply 401 "Invalid or expired refresh token").status = 400 ↔
        ((JSValue.str "forged").truthy = false ∨ ∀ t, JSValue.str "forged" ≠ .str t))) :=
  ⟨(refreshToken_issues_only_for_stored_token sampleRefreshEnv oneUser (.str "old-token")).2.2.2
      "old-token" (some 1) ada rfl (by decide) rfl rfl (by decide) rfl (by decide) rfl rfl rfl,
   (refreshToken_issues_only_for_stored_token sampleRefreshEnv oneUser (.str "forged")).2.1
      (errorReply 401 "Invalid or expired refresh token") (by decide) rfl⟩

end Auth

namespace Validator

open JS Recommendations

/-- C17: `validate` does exactly one of two things.  With at least one error it answers 400
with `success` false, with the full error list, and with the `msg` of the first error as
`message`, or `Validation failed` when that `msg` is falsy (missing or empty); it does not
call `next()`.  With no error it calls `next()` once and sends nothing. -/
theorem validate_rejects_or_continues (errors : List ValidationError) :
    (∀ first rest, errors = first :: rest →
      validate errors =
        { nextCalls := 0
          response := some
            { status := 400
              success := false
              message := if first.msg.truthy then first.msg else .str "Validation failed"
              errors := errors } }) ∧
    (∀ first rest, errors = first :: rest →
      (first.msg = .undefined ∨ first.msg = .str "") →
      ∃ r, (validate errors).response = some r ∧ r.message = .str "Validation failed") ∧
    (errors = [] → validate errors = { nextCalls := 1, response := none }) ∧
    (((validate errors).nextCalls = 0 ∧ (validate errors).response ≠ none ∧ errors ≠ []) ∨
      ((validate errors).nextCalls = 1 ∧ (validate errors).response = none ∧ errors = [])) := by
  cases errors with
  | nil =>
    refine ⟨?_, ?_, fun _ => rfl, Or.inr ⟨rfl, rfl, rfl⟩⟩
    · intro first rest h
      cases h
    · intro first rest h
      cases h
  | cons e es =>
    have hval : validate (e :: es) =
        { nextCalls := 0
          response := some
            { status := 400
              success := false
              message := if e.msg.truthy then e.msg else .str "Validation failed"
              errors := e :: es } } := by
      simp [validate, firstMsg, JSValue.or]
    refine ⟨?_, ?_, ?_, Or.inl ?_⟩
    · intro first rest h
      cases h
      exact hval
    · intro first rest h hmsg
      cases h
      rw [hval]
      rcases hmsg with hm | hm <;> simp [hm, JSValue.truthy]
    · intro h
      cases h
    · rw [hval]
      exact ⟨rfl, by simp, by simp⟩

/-- Concrete instance: one error with a message is answered with that message, and one error
with an empty message is answered with `Validation failed`. -/
theorem validate_rejects_or_continues_witness :
    validate [{ path := "date", msg := .str "Date must be a valid ISO 8601 date" }] =
      { nextCalls := 0
        response := some
          { status := 400
            success := false
            message :=
              if (JSValue.str "Date must be a valid ISO 8601 date").truthy then
                .str "Date must be a valid ISO 8601 date"
              else .str "Validation failed"
            errors := [{ path := "date", msg := .str "Date must be a valid ISO 8601 date" }] } } ∧
    (∃ r, (validate [{ path := "date", msg := .str "" }]).response = some r ∧
      r.message = .str "Validation failed") :=
  ⟨(validate_rejects_or_continues _).1 _ [] rfl,
   (validate_rejects_or_continues _).2.1 { path := "date", msg := .str "" } [] rfl
     (Or.inr rfl)⟩

/-- The list of errors of `validateUsageLog` is empty exactly when every check passes. -/
theorem usageLog_errors_nil (lib : Library) (body : UsageBody) :
    (validateUsageLog lib body).2.nextCalls = 1 ↔
      (lib.trim (lib.toString body.appName) ≠ "" ∧
        countedLength (lib.trim (lib.toString body.appName)) ≤ 100 ∧
        isFloat lib (lib.toString body.minutesSpent) 0 1440 = true ∧
        (body.date = .undefined ∨ lib.isISO8601 (lib.toString body.date) = true)) := by
  unfold validateUsageLog appNameChain minutesSpentChain dateChain validate isLength
  by_cases h1 : lib.trim (lib.toString body.appName) = "" <;>
  by_cases h2 : countedLength (lib.trim (lib.toString body.appName)) ≤ 100 <;>
  by_cases h3 : isFloat lib (lib.toString body.minutesSpent) 0 1440 = true <;>
  by_cases h4 : body.date = .undefined <;>
  by_cases h5 : lib.isISO8601 (lib.toString body.date) = true <;>
  simp [h1, h2, h3, h4, h5]

/-- The two outcomes of `validate`. -/
theorem validate_outcome (errors : List ValidationError) :
    validate errors = { nextCalls := 1, response := none } ∨
    ((validate errors).nextCalls = 0 ∧
      ∃ r, (validate errors).response = some r ∧ r.status = 400 ∧ r.success = false) := by
  cases errors with
  | nil => exact Or.inl rfl
  | cons e es => exact Or.inr ⟨rfl, _, rfl, rfl, rfl⟩

/-- A string accepted by `isFloat` with `min` 0 and `max` 1440 has a finite value in the
closed range. -/
theorem isFloat_range (lib : Library) (s : String) :
    isFloat lib s 0 1440 = true →
      ∃ q : ℚ, lib.parseFloat s = .fin q ∧ 0 ≤ q ∧ q ≤ 1440 := by
  intro h
  unfold isFloat at h
  simp only [Bool.and_eq_true] at h
  obtain ⟨⟨-, hge⟩, hle⟩ := h
  cases hv : lib.parseFloat s with
  | nan => simp [hv, geNumber] at hge
  | negInf => simp [hv, geNumber] at hge
  | posInf => simp [hv, leNumber] at hle
  | fin q =>
    rw [hv] at hge hle
    exact ⟨q, rfl, by simpa [geNumber] using hge, by simpa [leNumber] using hle⟩

/-- The length `isLength` counts is at most the number of code points, and equals it for a
string without variation selectors. -/
theorem countedLength_le (s : String) :
    countedLength s ≤ s.length ∧
    ((∀ c ∈ s.toList, isVariationSelector c = false) → countedLength s = s.length) := by
  unfold countedLength
  constructor
  · exact List.length_filter_le _ _
  · intro h
    have hall : s.toList.filter (fun c => !isVariationSelector c) = s.toList := by
      rw [List.filter_eq_self]
      intro c hc
      simp [h c hc]
    rw [hall]
    rfl

/-- Counterexample for the bound on the name: a name of 100 letters followed by the variation
selector U+FE0F passes `validateUsageLog` and reaches the next handler, and it is 101
characters long.  And minutes given as the string `30` pass as well and reach the next
handler as that string, not as a number. -/
theorem usageLog_selector_name_passes :
    (validateUsageLog sampleLibrary selectorEntry).2 = { nextCalls := 1, response := none } ∧
    (validateUsageLog sampleLibrary selectorEntry).1.appName = .str selectorName ∧
    selectorName.length = 101 ∧
    ¬ (selectorName.length ≤ 100) ∧
    (validateUsageLog sampleLibrary stringMinutesEntry).2 =
      { nextCalls := 1, response := none } ∧
    (validateUsageLog sampleLibrary stringMinutesEntry).1.minutesSpent = .str "30" := by
  refine ⟨by decide, by decide, by decide, by decide, by decide, by decide⟩

/-- C18, amended: a usage-log request that passes `validateUsageLog` reaches the next handler
with an `appName` that is the trimmed name, not empty and of length at most 100 when the
variation selectors U+FE0E and U+FE0F are not counted (so a name without such selectors is at
most 100 characters long), and with the `minutesSpent` it was sent with, whose numeric value
(the float read from its string form) is a number in the closed range from 0 to 1440; a
request for which one of these fails is answered with status 400 and does not reach the next
handler. -/
theorem usageLog_passes_only_in_range (lib : Library) (body : UsageBody) :
    ((validateUsageLog lib body).2.nextCalls = 1 →
      (validateUsageLog lib body).2.response = none ∧
      (validateUsageLog lib body).1.appName = .str (lib.trim (lib.toString body.appName)) ∧
      lib.trim (lib.toString body.appName) ≠ "" ∧
      countedLength (lib.trim (lib.toString body.appName)) ≤ 100 ∧
      ((∀ c ∈ (lib.trim (lib.toString body.appName)).toList, isVariationSelector c = false) →
        (lib.trim (lib.toString body.appName)).length ≤ 100) ∧
      (validateUsageLog lib body).1.minutesSpent = body.minutesSpent ∧
      ∃ q : ℚ, lib.parseFloat (lib.toString body.minutesSpent) = .fin q ∧ 0 ≤ q ∧ q ≤ 1440) ∧
    (¬ (lib.trim (lib.toString body.appName) ≠ "" ∧
          countedLength (lib.trim (lib.toString body.appName)) ≤ 100 ∧
          ∃ q : ℚ, lib.parseFloat (lib.toString body.minutesSpent) = .fin q ∧ 0 ≤ q ∧
            q ≤ 1440) →
      (validateUsageLog lib body).2.nextCalls = 0 ∧
      ∃ r, (validateUsageLog lib body).2.response = some r ∧ r.status = 400 ∧
        r.success = false) := by
  have hout : (validateUsageLog lib body).2 = { nextCalls := 1, response := none } ∨
      ((validateUsageLog lib body).2.nextCalls = 0 ∧
        ∃ r, (validateUsageLog lib body).2.response = some r ∧ r.status = 400 ∧
          r.success = false) := validate_outcome _
  constructor
  · intro hnext
    obtain ⟨h1, h2, h3, -⟩ := (usageLog_errors_nil lib body).mp hnext
    rcases hout with hresp | ⟨h0, -⟩
    · refine ⟨by rw [hresp], rfl, h1, h2, ?_, rfl, isFloat_range lib _ h3⟩
      intro hsel
      rw [← (countedLength_le _).2 hsel]
      exact h2
    · rw [h0] at hnext
      cases hnext
  · intro hbad
    rcases hout with hnext | hrej
    · exfalso
      obtain ⟨h1, h2, h3, -⟩ := (usageLog_errors_nil lib body).mp (by rw [hnext])
      exact hbad ⟨h1, h2, isFloat_range lib _ h3⟩
    · exact hrej

/-- Concrete instance: an entry of 30 minutes reaches the next handler with its name
trimmed, and an entry of 1500 minutes is answered with 400. -/
theorem usageLog_passes_only_in_range_witness :
    ((validateUsageLog sampleLibrary futureEntry).2.response = none ∧
      (validateUsageLog sampleLibrary futureEntry).1.appName =
        .str (sampleLibrary.trim (sampleLibrary.toString futureEntry.appName)) ∧
      sampleLibrary.trim (sampleLibrary.toString futureEntry.appName) ≠ "" ∧
      countedLength (sampleLibrary.trim (sampleLibrary.toString futureEntry.appName)) ≤ 100 ∧
      ((∀ c ∈ (sampleLibrary.trim (sampleLibrary.toString futureEntry.appName)).toList,
          isVariationSelector c = false) →
        (sampleLibrary.trim (sampleLibrary.toString futureEntry.appName)).length ≤ 100) ∧
      (validateUsageLog sampleLibrary futureEntry).1.minutesSpent = futureEntry.minutesSpent ∧
      ∃ q : ℚ, sampleLibrary.parseFloat (sampleLibrary.toString futureEntry.minutesSpent) =
        .fin q ∧ 0 ≤ q ∧ q ≤ 1440) ∧
    ((validateUsageLog sampleLibrary longEntry).2.nextCalls = 0 ∧
      ∃ r, (validateUsageLog sampleLibrary longEntry).2.response = some r ∧ r.status = 400 ∧
        r.success = false) :=
  ⟨(usageLog_passes_only_in_range sampleLibrary futureEntry).1 (by decide),
   (usageLog_passes_only_in_range sampleLibrary longEntry).2 (by
      rintro ⟨-, -, q, hq, -, hle⟩
      have hval : sampleLibrary.parseFloat (sampleLibrary.toString longEntry.minutesSpent) =
          .fin 1500 := by decide
      rw [hval] at hq
      cases hq
      norm_num at hle)⟩

/-- C19 fails on the code: the date of a usage-log request is checked for the ISO 8601 form
only.  A request that passes keeps passing when its date is replaced by any other date of
that form, however late: it reaches the next handler and gets no 400. -/
theorem future_date_reaches_controller (lib : Library) (body : UsageBody) (date : String)
    (hpass : (validateUsageLog lib body).2.nextCalls = 1)
    (hiso : lib.isISO8601 (lib.toString (.str date)) = true) :
    (validateUsageLog lib { body with date := .str date }).2 =
      { nextCalls := 1, response := none } := by
  obtain ⟨h1, h2, h3, -⟩ := (usageLog_errors_nil lib body).mp hpass
  have hnext : (validateUsageLog lib { body with date := .str date }).2.nextCalls = 1 :=
    (usageLog_errors_nil lib { body with date := .str date }).mpr ⟨h1, h2, h3, Or.inr hiso⟩
  have hout : (validateUsageLog lib { body with date := .str date }).2 =
        { nextCalls := 1, response := none } ∨
      ((validateUsageLog lib { body with date := .str date }).2.nextCalls = 0 ∧
        ∃ r, (validateUsageLog lib { body with date := .str date }).2.response = some r ∧
          r.status = 400 ∧ r.success = false) := validate_outcome _
  rcases hout with hok | ⟨h0, -⟩
  · exact hok
  · rw [h0] at hnext
    cases hnext

/-- Concrete instance: the entry dated 2999-12-31 reaches the next handler. -/
theorem future_date_reaches_controller_witness :
    (validateUsageLog sampleLibrary { plainEntry with date := .str "2999-12-31" }).2 =
      { nextCalls := 1, response := none } :=
  future_date_reaches_controller sampleLibrary plainEntry "2999-12-31" (by decide) (by decide)

end Validator
